import Mathlib

/-
Verification of the TEA financial-statement generator
(`mapping_rules.py` and `main.py`).

Python strings that are inspected character by character (account codes,
object codes, fund codes) are modelled as `List Char` (`Str`); other strings
stay `String`.  Monetary amounts (Python floats holding ledger amounts) are
modelled as `ℚ`.
-/

attribute [local semireducible] Rat.add Rat.sub Rat.mul Rat.inv

/-- Python strings viewed as character lists. -/
abbrev Str := List Char

/-- Python `s.startswith(p)`: `startsWithL s p` is true when `p` is an initial
segment of `s`. -/
def startsWithL : Str → Str → Bool
  | _, [] => true
  | [], _ :: _ => false
  | c :: cs, p :: ps => c == p && startsWithL cs ps

/-- Python slice `s[a:b]` (with `0 ≤ a ≤ b`): drop `a` characters, keep at most
`b - a`.  Like Python, a slice past the end of the string just comes out
shorter. -/
def sliceL (s : Str) (a b : Nat) : Str := (s.drop a).take (b - a)

/-- Python `needle in hay` for strings: substring test. -/
def containsL : Str → Str → Bool
  | [], needle => needle.isEmpty
  | c :: t, needle => startsWithL (c :: t) needle || containsL t needle

/-- Python `s.lower()` (the strings involved are ASCII). -/
def lowerL (s : Str) : Str := s.map Char.toLower

/-- Python `s.isdigit()` (ASCII digits; the empty string is not a digit
string). -/
def isDigitStr (s : Str) : Bool := !s.isEmpty && s.all Char.isDigit

/-- Python `abs` on an amount. -/
def pyAbs (q : ℚ) : ℚ := if q < 0 then -q else q
/-- Source `TEA_OBJECT_CATEGORIES` of mapping_rules.py: first object-code digit to TEA category. -/
def TEA_OBJECT_CATEGORIES : List (Char × String) :=
  [('1', "Assets"), ('2', "Liabilities"), ('3', "Fund Balances/Net Position"), ('4', "Clearing Accounts"), ('5', "Revenues"), ('6', "Expenditures/Expenses"), ('7', "Other Resources/Non-operating Revenues"), ('8', "Other Uses/Non-operating Expenses")]

/-- Source `GASB_CATEGORIES` of mapping_rules.py, in declaration order; only the
`tea_codes` allow-lists are kept (the `description` strings are not read by any
function modelled here). -/
def GASB_CATEGORIES : List (String × List Str) :=
[
  ("current_assets",
    ["1110", "1120", "1130", "1140", "1150", "1160", "1170", "1180", "1190", "1210",
      "1220", "1225", "1230", "1240", "1250", "1260", "1267", "1270", "1280", "1290",
      "1300", "1310", "1320", "1330", "1340", "1350", "1360", "1370", "1380", "1390",
      "1410", "1420", "1430", "1440", "1450", "1460", "1470", "1480", "1490"].map String.toList),
  ("capital_assets",
    ["1510", "1520", "1530", "1540", "1550", "1560", "1570", "1580", "1590"].map String.toList),
  ("deferred_outflows",
    ["1700", "1701", "1702", "1703", "1704", "1705", "1706", "1707", "1708", "1709"].map String.toList),
  ("current_liabilities",
    ["2110", "2120", "2130", "2140", "2150", "2160", "2165", "2170", "2180", "2190",
      "2210", "2220", "2230", "2240", "2250", "2260", "2270", "2280", "2290", "2300",
      "2310", "2320", "2330", "2340", "2350", "2360", "2370", "2380", "2390"].map String.toList),
  ("long_term_liabilities",
    ["2410", "2420", "2430", "2440", "2450", "2460", "2470", "2480", "2490", "2501",
      "2502", "2510", "2520", "2530", "2540", "2545", "2550", "2560", "2570", "2580",
      "2590"].map String.toList),
  ("deferred_inflows",
    ["2600", "2601", "2602", "2603", "2604", "2605", "2606", "2607", "2608", "2609"].map String.toList),
  ("net_investment_capital_assets",
    ["3200", "3210", "3220", "3230", "3240", "3250", "3260", "3270", "3280", "3290"].map String.toList),
  ("restricted_net_position",
    ["3300", "3310", "3320", "3330", "3340", "3350", "3360", "3370", "3380", "3390",
      "3400", "3410", "3420", "3430", "3440", "3450", "3460", "3470", "3480", "3490",
      "3500", "3510", "3520", "3530", "3540", "3550", "3560", "3570", "3580", "3590",
      "3600", "3610", "3620", "3630", "3640", "3650", "3660", "3670", "3680", "3690",
      "3700", "3710", "3720", "3730", "3740", "3750", "3760", "3770", "3780", "3790",
      "3800", "3810", "3820", "3830", "3840", "3850", "3860", "3870", "3880", "3890"].map String.toList),
  ("unrestricted_net_position",
    ["3900", "3910", "3920", "3930", "3940", "3950", "3960", "3970", "3980", "3990"].map String.toList),
  ("program_revenues",
    ["5100", "5110", "5120", "5130", "5140", "5150", "5160", "5170", "5180", "5190",
      "5200", "5210", "5220", "5230", "5240", "5250", "5260", "5270", "5280", "5290",
      "5300", "5310", "5320", "5330", "5340", "5350", "5360", "5370", "5380", "5390"].map String.toList),
  ("general_revenues",
    ["5400", "5410", "5420", "5430", "5440", "5450", "5460", "5470", "5480", "5490",
      "5500", "5510", "5520", "5530", "5540", "5550", "5560", "5570", "5580", "5590",
      "5600", "5610", "5620", "5630", "5640", "5650", "5660", "5670", "5680", "5690",
      "5700", "5710", "5720", "5730", "5740", "5750", "5760", "5770", "5780", "5790",
      "5800", "5810", "5820", "5830", "5840", "5850", "5860", "5870", "5880", "5890",
      "5900", "5910", "5920", "5930", "5940", "5950", "5960", "5970", "5980", "5990"].map String.toList),
  ("program_expenses",
    ["6100", "6110", "6120", "6130", "6140", "6150", "6160", "6170", "6180", "6190",
      "6200", "6210", "6220", "6230", "6240", "6250", "6260", "6270", "6280", "6290",
      "6300", "6310", "6320", "6330", "6340", "6350", "6360", "6370", "6380", "6390",
      "6400", "6410", "6420", "6430", "6440", "6450", "6460", "6470", "6480", "6490",
      "6500", "6510", "6520", "6530", "6540", "6550", "6560", "6570", "6580", "6590"].map String.toList),
  ("general_expenses",
    ["6600", "6610", "6620", "6630", "6640", "6650", "6660", "6670", "6680", "6690",
      "6700", "6710", "6720", "6730", "6740", "6750", "6760", "6770", "6780", "6790",
      "6800", "6810", "6820", "6830", "6840", "6850", "6860", "6870", "6880", "6890",
      "6900", "6910", "6920", "6930", "6940", "6950", "6960", "6970", "6980", "6990"].map String.toList),
  ("other_resources",
    ["7000", "7010", "7020", "7030", "7040", "7050", "7060", "7070", "7080", "7090",
      "7100", "7110", "7120", "7130", "7140", "7150", "7160", "7170", "7180", "7190",
      "7200", "7210", "7220", "7230", "7240", "7250", "7260", "7270", "7280", "7290",
      "7300", "7310", "7320", "7330", "7340", "7350", "7360", "7370", "7380", "7390",
      "7400", "7410", "7420", "7430", "7440", "7450", "7460", "7470", "7480", "7490",
      "7500", "7510", "7520", "7530", "7540", "7550", "7560", "7570", "7580", "7590",
      "7600", "7610", "7620", "7630", "7640", "7650", "7660", "7670", "7680", "7690",
      "7700", "7710", "7720", "7730", "7740", "7750", "7760", "7770", "7780", "7790",
      "7800", "7810", "7820", "7830", "7840", "7850", "7860", "7870", "7880", "7890",
      "7900", "7910", "7915", "7920", "7930", "7940", "7950", "7960", "7970", "7980",
      "7990"].map String.toList),
  ("other_uses",
    ["8000", "8010", "8020", "8030", "8040", "8050", "8060", "8070", "8080", "8090",
      "8100", "8110", "8120", "8130", "8140", "8150", "8160", "8170", "8180", "8190",
      "8200", "8210", "8220", "8230", "8240", "8250", "8260", "8270", "8280", "8290",
      "8300", "8310", "8320", "8330", "8340", "8350", "8360", "8370", "8380", "8390",
      "8400", "8410", "8420", "8430", "8440", "8450", "8460", "8470", "8480", "8490",
      "8500", "8510", "8520", "8530", "8540", "8550", "8560", "8570", "8580", "8590",
      "8600", "8610", "8620", "8630", "8640", "8650", "8660", "8670", "8680", "8690",
      "8700", "8710", "8720", "8730", "8740", "8750", "8760", "8770", "8780", "8790",
      "8800", "8810", "8820", "8830", "8840", "8850", "8860", "8870", "8880", "8890",
      "8900", "8910", "8920", "8930", "8940", "8950", "8960", "8970", "8980", "8990"].map String.toList),
  ("clearing_accounts",
    ["4000", "4010", "4020", "4030", "4040", "4050", "4060", "4070", "4080", "4090",
      "4100", "4110", "4120", "4130", "4140", "4150", "4160", "4170", "4180", "4190",
      "4200", "4210", "4220", "4230", "4240", "4250", "4260", "4270", "4280", "4290",
      "4300", "4310", "4320", "4330", "4340", "4350", "4360", "4370", "4380", "4390",
      "4400", "4410", "4420", "4430", "4440", "4450", "4460", "4470", "4480", "4490",
      "4500", "4510", "4520", "4530", "4540", "4550", "4560", "4570", "4580", "4590",
      "4600", "4610", "4620", "4630", "4640", "4650", "4660", "4670", "4680", "4690",
      "4700", "4710", "4720", "4730", "4740", "4750", "4760", "4770", "4780", "4790",
      "4800", "4810", "4820", "4830", "4840", "4850", "4860", "4870", "4880", "4890",
      "4900", "4910", "4920", "4930", "4940", "4950", "4960", "4970", "4980", "4990"].map String.toList)
]

/-- Source `FUND_CATEGORIES` of mapping_rules.py, in declaration order; only the
`fund_codes` allow-lists are kept. -/
def FUND_CATEGORIES : List (String × List Str) :=
[
  ("general_fund",
    ["100", "101", "102", "103", "104", "105", "106", "107", "108", "109",
      "110", "111", "112", "113", "114", "115", "116", "117", "118", "119",
      "120", "121", "122", "123", "124", "125", "126", "127", "128", "129",
      "130", "131", "132", "133", "134", "135", "136", "137", "138", "139",
      "140", "141", "142", "143", "144", "145", "146", "147", "148", "149",
      "150", "151", "152", "153", "154", "155", "156", "157", "158", "159",
      "160", "161", "162", "163", "164", "165", "166", "167", "168", "169",
      "170", "171", "172", "173", "174", "175", "176", "177", "178", "179",
      "180", "181", "182", "183", "184", "185", "186", "187", "188", "189",
      "190", "191", "192", "193", "194", "195", "196", "197", "198", "199"].map String.toList),
  ("special_revenue_funds",
    ["200", "201", "202", "203", "204", "205", "206", "207", "208", "209",
      "210", "211", "212", "213", "214", "215", "216", "217", "218", "219",
      "220", "221", "222", "223", "224", "225", "226", "227", "228", "229",
      "230", "231", "232", "233", "234", "235", "236", "237", "238", "239",
      "240", "241", "242", "243", "244", "245", "246", "247", "248", "249",
      "250", "251", "252", "253", "254", "255", "256", "257", "258", "259",
      "260", "261", "262", "263", "264", "265", "266", "267", "268", "269",
      "270", "271", "272", "273", "274", "275", "276", "277", "278", "279",
      "280", "281", "282", "283", "284", "285", "286", "287", "288", "289",
      "290", "291", "292", "293", "294", "295", "296", "297", "298", "299"].map String.toList),
  ("enterprise_funds",
    ["300", "301", "302", "303", "304", "305", "306", "307", "308", "309",
      "310", "311", "312", "313", "314", "315", "316", "317", "318", "319",
      "320", "321", "322", "323", "324", "325", "326", "327", "328", "329",
      "330", "331", "332", "333", "334", "335", "336", "337", "338", "339",
      "340", "341", "342", "343", "344", "345", "346", "347", "348", "349",
      "350", "351", "352", "353", "354", "355", "356", "357", "358", "359",
      "360", "361", "362", "363", "364", "365", "366", "367", "368", "369",
      "370", "371", "372", "373", "374", "375", "376", "377", "378", "379",
      "380", "381", "382", "383", "384", "385", "386", "387", "388", "389",
      "390", "391", "392", "393", "394", "395", "396", "397", "398", "399"].map String.toList),
  ("internal_service_funds",
    ["400", "401", "402", "403", "404", "405", "406", "407", "408", "409",
      "410", "411", "412", "413", "414", "415", "416", "417", "418", "419",
      "420", "421", "422", "423", "424", "425", "426", "427", "428", "429",
      "430", "431", "432", "433", "434", "435", "436", "437", "438", "439",
      "440", "441", "442", "443", "444", "445", "446", "447", "448", "449",
      "450", "451", "452", "453", "454", "455", "456", "457", "458", "459",
      "460", "461", "462", "463", "464", "465", "466", "467", "468", "469",
      "470", "471", "472", "473", "474", "475", "476", "477", "478", "479",
      "480", "481", "482", "483", "484", "485", "486", "487", "488", "489",
      "490", "491", "492", "493", "494", "495", "496", "497", "498", "499"].map String.toList),
  ("debt_service_funds",
    ["500", "501", "502", "503", "504", "505", "506", "507", "508", "509",
      "510", "511", "512", "513", "514", "515", "516", "517", "518", "519",
      "520", "521", "522", "523", "524", "525", "526", "527", "528", "529",
      "530", "531", "532", "533", "534", "535", "536", "537", "538", "539",
      "540", "541", "542", "543", "544", "545", "546", "547", "548", "549",
      "550", "551", "552", "553", "554", "555", "556", "557", "558", "559",
      "560", "561", "562", "563", "564", "565", "566", "567", "568", "569",
      "570", "571", "572", "573", "574", "575", "576", "577", "578", "579",
      "580", "581", "582", "583", "584", "585", "586", "587", "588", "589",
      "590", "591", "592", "593", "594", "595", "596", "597", "598", "599"].map String.toList),
  ("capital_projects_funds",
    ["600", "601", "602", "603", "604", "605", "606", "607", "608", "609",
      "610", "611", "612", "613", "614", "615", "616", "617", "618", "619",
      "620", "621", "622", "623", "624", "625", "626", "627", "628", "629",
      "630", "631", "632", "633", "634", "635", "636", "637", "638", "639",
      "640", "641", "642", "643", "644", "645", "646", "647", "648", "649",
      "650", "651", "652", "653", "654", "655", "656", "657", "658", "659",
      "660", "661", "662", "663", "664", "665", "666", "667", "668", "669",
      "670", "671", "672", "673", "674", "675", "676", "677", "678", "679",
      "680", "681", "682", "683", "684", "685", "686", "687", "688", "689",
      "690", "691", "692", "693", "694", "695", "696", "697", "698", "699"].map String.toList),
  ("permanent_funds",
    ["700", "701", "702", "703", "704", "705", "706", "707", "708", "709",
      "710", "711", "712", "713", "714", "715", "716", "717", "718", "719",
      "720", "721", "722", "723", "724", "725", "726", "727", "728", "729",
      "730", "731", "732", "733", "734", "735", "736", "737", "738", "739",
      "740", "741", "742", "743", "744", "745", "746", "747", "748", "749",
      "750", "751", "752", "753", "754", "755", "756", "757", "758", "759",
      "760", "761", "762", "763", "764", "765", "766", "767", "768", "769",
      "770", "771", "772", "773", "774", "775", "776", "777", "778", "779",
      "780", "781", "782", "783", "784", "785", "786", "787", "788", "789",
      "790", "791", "792", "793", "794", "795", "796", "797", "798", "799"].map String.toList),
  ("fiduciary_funds",
    ["800", "801", "802", "803", "804", "805", "806", "807", "808", "809",
      "810", "811", "812", "813", "814", "815", "816", "817", "818", "819",
      "820", "821", "822", "823", "824", "825", "826", "827", "828", "829",
      "830", "831", "832", "833", "834", "835", "836", "837", "838", "839",
      "840", "841", "842", "843", "844", "845", "846", "847", "848", "849",
      "850", "851", "852", "853", "854", "855", "856", "857", "858", "859",
      "860", "861", "862", "863", "864", "865", "866", "867", "868", "869",
      "870", "871", "872", "873", "874", "875", "876", "877", "878", "879",
      "880", "881", "882", "883", "884", "885", "886", "887", "888", "889",
      "890", "891", "892", "893", "894", "895", "896", "897", "898", "899"].map String.toList)
]
/-- The 4-digit object code of an account code: Python `account_code[5:9]`. -/
def objectCodeOf (code : String) : Str := sliceL code.toList 5 9

/-- Source `get_tea_category` of mapping_rules.py: for codes of length at least
9, look up the character at position 5 in `TEA_OBJECT_CATEGORIES`, defaulting
to `"Unknown"`. -/
def get_tea_category (code : String) : String :=
  if 9 ≤ code.length then
    match TEA_OBJECT_CATEGORIES.lookup (code.toList.getD 5 ' ') with
    | some v => v
    | none => "Unknown"
  else "Unknown"

/-- Source `get_gasb_category` of mapping_rules.py, pattern-matching fallback
(the body of the function after the exact-match loop misses): prefix rules on
the object code.  Python `object_code.startswith(('11', '12'))` is translated
as a disjunction of `startsWithL` tests. -/
def gasbFallbackSrc (oc : Str) : String :=
  if startsWithL oc ['1'] then
    if startsWithL oc ['1', '1'] || startsWithL oc ['1', '2'] ||
        startsWithL oc ['1', '3'] || startsWithL oc ['1', '4'] then "current_assets"
    else if startsWithL oc ['1', '5'] then "capital_assets"
    else if startsWithL oc ['1', '7'] then "deferred_outflows"
    else "current_assets"
  else if startsWithL oc ['2'] then
    if startsWithL oc ['2', '1'] || startsWithL oc ['2', '2'] ||
        startsWithL oc ['2', '3'] then "current_liabilities"
    else if startsWithL oc ['2', '4'] || startsWithL oc ['2', '5'] then "long_term_liabilities"
    else if startsWithL oc ['2', '6'] then "deferred_inflows"
    else "current_liabilities"
  else if startsWithL oc ['3'] then
    if startsWithL oc ['3', '2'] then "net_investment_capital_assets"
    else if startsWithL oc ['3', '3'] || startsWithL oc ['3', '4'] ||
        startsWithL oc ['3', '5'] || startsWithL oc ['3', '6'] ||
        startsWithL oc ['3', '7'] || startsWithL oc ['3', '8'] then "restricted_net_position"
    else if startsWithL oc ['3', '9'] then "unrestricted_net_position"
    else "restricted_net_position"
  else if startsWithL oc ['5'] then
    if startsWithL oc ['5', '1'] || startsWithL oc ['5', '2'] ||
        startsWithL oc ['5', '3'] then "program_revenues"
    else "general_revenues"
  else if startsWithL oc ['6'] then
    if startsWithL oc ['6', '1'] || startsWithL oc ['6', '2'] ||
        startsWithL oc ['6', '3'] || startsWithL oc ['6', '4'] ||
        startsWithL oc ['6', '5'] then "program_expenses"
    else "general_expenses"
  else if startsWithL oc ['7'] then "other_resources"
  else if startsWithL oc ['8'] then "other_uses"
  else "unknown"

/-- Source `get_gasb_category` of mapping_rules.py: for codes of length at
least 9, first try an exact match of the object code against the
`GASB_CATEGORIES` allow-lists in declaration order, then fall back to the
prefix rules of `gasbFallbackSrc`; everything else is `"unknown"`. -/
def get_gasb_category (code : String) : String :=
  if 9 ≤ code.length then
    match GASB_CATEGORIES.find? (fun p => p.2.contains (objectCodeOf code)) with
    | some p => p.1
    | none => gasbFallbackSrc (objectCodeOf code)
  else "unknown"

/-- Source `get_fund_category` of mapping_rules.py, pattern-matching fallback:
leading-digit rules on the 3-digit fund code. -/
def fundFallbackSrc (fc : Str) : String :=
  if startsWithL fc ['1'] then "general_fund"
  else if startsWithL fc ['2'] then "special_revenue_funds"
  else if startsWithL fc ['5'] then "debt_service_funds"
  else if startsWithL fc ['6'] then "capital_projects_funds"
  else if startsWithL fc ['7'] then "permanent_funds"
  else "other_governmental_funds"

/-- Source `get_fund_category` of mapping_rules.py: for codes of length at
least 3, first try an exact match of the 3-digit fund code against the
`FUND_CATEGORIES` allow-lists, then fall back to leading-digit rules. -/
def get_fund_category (code : String) : String :=
  if 3 ≤ code.length then
    match FUND_CATEGORIES.find? (fun p => p.2.contains (sliceL code.toList 0 3)) with
    | some p => p.1
    | none => fundFallbackSrc (sliceL code.toList 0 3)
  else "other_governmental_funds"

/-- Source `validate_account_code` of mapping_rules.py, validity component:
length at least 9 and numeric fund / function / object windows.  (The Python
function also returns a message or the parsed components; no function modelled
here reads that second component.) -/
def validate_account_code (code : String) : Bool :=
  if code.length < 9 then false
  else
    isDigitStr (sliceL code.toList 0 3) && isDigitStr (sliceL code.toList 3 5) &&
      isDigitStr (sliceL code.toList 5 9)

/-- Modelled from the claim wording (C4): the fallback prefix rules stated as
membership in explicit prefix lists — 11-14 current_assets, 15 capital_assets,
17 deferred_outflows, other 1-prefix current_assets; 21-23 current_liabilities,
24-25 long_term_liabilities, 26 deferred_inflows, other 2-prefix
current_liabilities; 32 net_investment_capital_assets, 33-38
restricted_net_position, 39 unrestricted_net_position, other 3-prefix
restricted_net_position; 51-53 program_revenues, other 5-prefix
general_revenues; 61-65 program_expenses, other 6-prefix general_expenses;
7-prefix other_resources; 8-prefix other_uses; anything else unknown. -/
def gasbFallbackClaim (oc : Str) : String :=
  if startsWithL oc ['1'] then
    if [['1', '1'], ['1', '2'], ['1', '3'], ['1', '4']].any (startsWithL oc) then "current_assets"
    else if startsWithL oc ['1', '5'] then "capital_assets"
    else if startsWithL oc ['1', '7'] then "deferred_outflows"
    else "current_assets"
  else if startsWithL oc ['2'] then
    if [['2', '1'], ['2', '2'], ['2', '3']].any (startsWithL oc) then "current_liabilities"
    else if [['2', '4'], ['2', '5']].any (startsWithL oc) then "long_term_liabilities"
    else if startsWithL oc ['2', '6'] then "deferred_inflows"
    else "current_liabilities"
  else if startsWithL oc ['3'] then
    if startsWithL oc ['3', '2'] then "net_investment_capital_assets"
    else if [['3', '3'], ['3', '4'], ['3', '5'], ['3', '6'], ['3', '7'],
        ['3', '8']].any (startsWithL oc) then "restricted_net_position"
    else if startsWithL oc ['3', '9'] then "unrestricted_net_position"
    else "restricted_net_position"
  else if startsWithL oc ['5'] then
    if [['5', '1'], ['5', '2'], ['5', '3']].any (startsWithL oc) then "program_revenues"
    else "general_revenues"
  else if startsWithL oc ['6'] then
    if [['6', '1'], ['6', '2'], ['6', '3'], ['6', '4'],
        ['6', '5']].any (startsWithL oc) then "program_expenses"
    else "general_expenses"
  else if startsWithL oc ['7'] then "other_resources"
  else if startsWithL oc ['8'] then "other_uses"
  else "unknown"

/-- Modelled from the claim wording (C4): exact membership in the static
category lists first, in declaration order with first match winning, then the
prefix rules, and `"unknown"` for codes shorter than 9 characters. -/
def gasb_category_claim (code : String) : String :=
  if 9 ≤ code.length then
    match GASB_CATEGORIES.find? (fun p => p.2.contains (objectCodeOf code)) with
    | some p => p.1
    | none => gasbFallbackClaim (objectCodeOf code)
  else "unknown"

lemma gasbFallback_eq (oc : Str) : gasbFallbackSrc oc = gasbFallbackClaim oc := by
  unfold gasbFallbackSrc gasbFallbackClaim
  simp only [List.any_cons, List.any_nil, Bool.or_false, Bool.or_assoc]

/-- C4: `get_gasb_category` resolves exactly as the claim describes — first an
exact-membership pass over the static GASB category code lists in declaration
order, then the stated two-digit-prefix fallback rules, with `"unknown"` for
anything else or for codes shorter than 9 characters. -/
theorem get_gasb_category_eq_claim (code : String) :
    get_gasb_category code = gasb_category_claim code := by
  unfold get_gasb_category gasb_category_claim
  by_cases h9 : 9 ≤ code.length
  · rw [if_pos h9, if_pos h9]
    cases hf : GASB_CATEGORIES.find? (fun p => p.2.contains (objectCodeOf code)) with
    | some p => rfl
    | none => exact gasbFallback_eq _
  · rw [if_neg h9, if_neg h9]

def TEA_CATEGORY_NAMES : List String := TEA_OBJECT_CATEGORIES.map Prod.snd

def GASB_CATEGORY_NAMES : List String := GASB_CATEGORIES.map Prod.fst

def FUND_CATEGORY_NAMES : List String := FUND_CATEGORIES.map Prod.fst

lemma lookup_mem_snd {α β : Type} [BEq α] {k : α} {l : List (α × β)} {v : β}
    (h : List.lookup k l = some v) : v ∈ l.map Prod.snd := by
  induction l with
  | nil => simp [List.lookup] at h
  | cons p t ih =>
    obtain ⟨a, b⟩ := p
    rw [List.lookup] at h
    split at h
    · injection h with h
      subst h
      exact List.mem_cons_self _ _
    · exact List.mem_cons_of_mem _ (ih h)

set_option linter.unusedVariables false in
/-- C6: for every account code of length at least 9 made only of digits, each
of the three classifiers returns one of its enumerated category names (the 8
TEA names or `"Unknown"`; a named GASB category or `"unknown"`; a named fund
category or `"other_governmental_funds"`); being total Lean functions, they
cannot raise. -/
theorem classifier_results_enumerated (code : String)
    (h9 : 9 ≤ code.length) (hd : code.toList.all Char.isDigit = true) :
    get_tea_category code ∈ "Unknown" :: TEA_CATEGORY_NAMES
    ∧ get_gasb_category code ∈ "unknown" :: GASB_CATEGORY_NAMES
    ∧ get_fund_category code ∈ "other_governmental_funds" :: FUND_CATEGORY_NAMES := by
  refine ⟨?_, ?_, ?_⟩
  · unfold get_tea_category
    rw [if_pos h9]
    cases hl : TEA_OBJECT_CATEGORIES.lookup (code.toList.getD 5 ' ') with
    | none => exact List.mem_cons_self _ _
    | some v => exact List.mem_cons_of_mem _ (lookup_mem_snd hl)
  · unfold get_gasb_category
    rw [if_pos h9]
    cases hf : GASB_CATEGORIES.find? (fun p => p.2.contains (objectCodeOf code)) with
    | some p =>
      exact List.mem_cons_of_mem _ (List.mem_map_of_mem _ (List.mem_of_find?_eq_some hf))
    | none =>
      show gasbFallbackSrc (objectCodeOf code) ∈ "unknown" :: GASB_CATEGORY_NAMES
      unfold gasbFallbackSrc
      repeat' split
      all_goals decide
  · unfold get_fund_category
    rw [if_pos (le_trans (by norm_num) h9)]
    cases hf : FUND_CATEGORIES.find? (fun p => p.2.contains (sliceL code.toList 0 3)) with
    | some p =>
      exact List.mem_cons_of_mem _ (List.mem_map_of_mem _ (List.mem_of_find?_eq_some hf))
    | none =>
      show fundFallbackSrc (sliceL code.toList 0 3) ∈ "other_governmental_funds" :: FUND_CATEGORY_NAMES
      unfold fundFallbackSrc
      repeat' split
      all_goals decide

/-- C6 witness: the theorem applied at the concrete digit code "110001110". -/
theorem classifier_results_enumerated_witness :
    get_tea_category "110001110" ∈ "Unknown" :: TEA_CATEGORY_NAMES
    ∧ get_gasb_category "110001110" ∈ "unknown" :: GASB_CATEGORY_NAMES
    ∧ get_fund_category "110001110" ∈ "other_governmental_funds" :: FUND_CATEGORY_NAMES :=
  classifier_results_enumerated "110001110" (by decide) (by decide)

/-- Rollup metadata: the fields of the dict returned by
`get_rollup_information` in main.py. -/
structure RollupInfo where
  rollup_applied : Bool
  rollup_description : String
deriving DecidableEq

set_option linter.unusedVariables false in
/-- Source `get_rollup_information` of main.py: flags whether an account's
balance is folded into a coarser statement line, with a target description. -/
def get_rollup_information (account_code gasb_category object_code : String) : RollupInfo :=
  if gasb_category == "Unmapped" then ⟨false, ""⟩
  else if startsWithL object_code.toList ['1', '1'] then
    ⟨true, "Rolled up into Cash and Cash Equivalents"⟩
  else if startsWithL object_code.toList ['1', '2'] &&
      !(["1225", "1240", "1267"].contains object_code) then
    ⟨true, "Rolled up into Other Receivables (Net)"⟩
  else if startsWithL object_code.toList ['1', '5'] &&
      !(["1510", "1520", "1530", "1580"].contains object_code) then
    ⟨true, "Rolled up into Buildings and Improvements, Net"⟩
  else if startsWithL object_code.toList ['2', '1'] &&
      !(["2110", "2140", "2165", "2180", "2300"].contains object_code) then
    ⟨true, "Rolled up into Accounts Payable"⟩
  else if startsWithL object_code.toList ['2', '5'] &&
      !(["2501", "2502", "2540", "2545"].contains object_code) then
    ⟨true, "Rolled up into Due in More Than One Year"⟩
  else if startsWithL object_code.toList ['3', '8'] &&
      !(["3820", "3850"].contains object_code) then
    ⟨true, "Rolled up into State and Federal Programs"⟩
  else ⟨false, ""⟩

/-- Modelled from the claim wording (C8): the exact condition under which a
rollup is flagged — object code starting 11; 12 outside the three named
receivable codes; 15 outside the four named capital-asset codes; 21 outside
the five named current-liability codes; 25 outside the four named long-term
codes; 38 outside the two named restricted codes. -/
def rollupCondition (object_code : String) : Bool :=
  startsWithL object_code.toList ['1', '1']
  || (startsWithL object_code.toList ['1', '2'] &&
      !(["1225", "1240", "1267"].contains object_code))
  || (startsWithL object_code.toList ['1', '5'] &&
      !(["1510", "1520", "1530", "1580"].contains object_code))
  || (startsWithL object_code.toList ['2', '1'] &&
      !(["2110", "2140", "2165", "2180", "2300"].contains object_code))
  || (startsWithL object_code.toList ['2', '5'] &&
      !(["2501", "2502", "2540", "2545"].contains object_code))
  || (startsWithL object_code.toList ['3', '8'] &&
      !(["3820", "3850"].contains object_code))

/-- C8: for every account whose `gasb_category` is not `"Unmapped"`,
`get_rollup_information` sets `rollup_applied` exactly under the claimed
prefix-with-exceptions condition, and any object code starting with "11"
(such as "1199") gets the description "Rolled up into Cash and Cash
Equivalents". -/
theorem get_rollup_information_spec (ac gc oc : String) (h : gc ≠ "Unmapped") :
    (get_rollup_information ac gc oc).rollup_applied = rollupCondition oc
    ∧ (startsWithL oc.toList ['1', '1'] = true →
        (get_rollup_information ac gc oc).rollup_description =
          "Rolled up into Cash and Cash Equivalents") := by
  have hb : (gc == "Unmapped") = false := by
    simpa using h
  constructor
  · unfold get_rollup_information rollupCondition
    simp only [hb, Bool.false_eq_true, if_false]
    generalize startsWithL oc.toList ['1', '1'] = b1
    generalize (startsWithL oc.toList ['1', '2'] &&
      !(["1225", "1240", "1267"].contains oc)) = b2
    generalize (startsWithL oc.toList ['1', '5'] &&
      !(["1510", "1520", "1530", "1580"].contains oc)) = b3
    generalize (startsWithL oc.toList ['2', '1'] &&
      !(["2110", "2140", "2165", "2180", "2300"].contains oc)) = b4
    generalize (startsWithL oc.toList ['2', '5'] &&
      !(["2501", "2502", "2540", "2545"].contains oc)) = b5
    generalize (startsWithL oc.toList ['3', '8'] &&
      !(["3820", "3850"].contains oc)) = b6
    cases b1 <;> cases b2 <;> cases b3 <;> cases b4 <;> cases b5 <;> cases b6 <;> rfl
  · intro h11
    unfold get_rollup_information
    simp only [hb, Bool.false_eq_true, if_false]
    rw [if_pos h11]

/-- C8 witness: at object code "1199" (and a mapped category) the rollup flag
is on, with the description naming Cash and Cash Equivalents; the condition
evaluates as the claim demands. -/
theorem get_rollup_information_spec_witness :
    (get_rollup_information "100001199" "current_assets" "1199").rollup_applied =
      rollupCondition "1199"
    ∧ (get_rollup_information "100001199" "current_assets" "1199").rollup_description =
      "Rolled up into Cash and Cash Equivalents" :=
  ⟨(get_rollup_information_spec "100001199" "current_assets" "1199" (by decide)).1,
    (get_rollup_information_spec "100001199" "current_assets" "1199" (by decide)).2 (by decide)⟩

/-- A trial-balance row as consumed by the statement generators: an account
code and its `current_year_actual` amount (the generators read no other
column). -/
structure Row where
  account_code : String
  current_year_actual : ℚ
deriving DecidableEq

/-- A category-mapping entry; the statement generators read only the three
category fields (`description`, `statement_line` and `notes` are never read by
the functions modelled here). -/
structure MappingEntry where
  tea_category : String
  gasb_category : String
  fund_category : String
deriving DecidableEq

/-- The account-mapping dictionary, keyed by account code (Python dict with
unique keys; `code in mapping` and `mapping[code]` become `List.lookup`). -/
abbrev Mapping := List (String × MappingEntry)

/-- The Statement of Net Position of main.py
(`generate_government_wide_net_position`), flattened: one field per leaf line
item, per computed total, and the `balance_validation` fields.  Leaf field
names follow the nested dict keys of the source. -/
structure NetPosition where
  cash_and_cash_equivalents : ℚ
  property_taxes_receivable : ℚ
  due_from_other_governments : ℚ
  due_from_fiduciary : ℚ
  other_receivables : ℚ
  inventories : ℚ
  unrealized_expenses : ℚ
  capital_land : ℚ
  capital_buildings_improvements : ℚ
  capital_furniture_equipment : ℚ
  capital_construction_in_progress : ℚ
  total_assets : ℚ
  deferred_charge_refunding : ℚ
  deferred_outflow_pensions : ℚ
  deferred_outflow_opeb : ℚ
  total_deferred_outflows : ℚ
  accounts_payable : ℚ
  interest_payable : ℚ
  accrued_liabilities : ℚ
  due_to_other_governments : ℚ
  unearned_revenue : ℚ
  due_within_one_year : ℚ
  due_more_than_one_year : ℚ
  net_pension_liability : ℚ
  net_opeb_liability : ℚ
  total_liabilities : ℚ
  deferred_inflow_pensions : ℚ
  deferred_inflow_opeb : ℚ
  total_deferred_inflows : ℚ
  net_investment_capital_assets : ℚ
  restricted_state_federal_programs : ℚ
  restricted_debt_service : ℚ
  unrestricted : ℚ
  total_net_position : ℚ
  left_side : ℚ
  right_side : ℚ
  balanced : Bool
deriving DecidableEq

/-- The zero-initialized Statement of Net Position template of main.py. -/
def netPositionInit : NetPosition :=
  ⟨0, 0, 0, 0, 0, 0, 0, 0, 0, 0, 0, 0, 0, 0, 0, 0, 0, 0, 0,
    0, 0, 0, 0, 0, 0, 0, 0, 0, 0, 0, 0, 0, 0, 0, 0, 0, false⟩

/-- Object-code extraction of the net-position generator: Python
`account_code[5:9] if len(account_code) >= 9 else '0000'`. -/
def npObjectCode (code : String) : Str :=
  if 9 ≤ code.length then sliceL code.toList 5 9 else ['0', '0', '0', '0']

/-- Per-row accumulation of `generate_government_wide_net_position` in
main.py: skip rows whose account code has no mapping entry, then route the
amount through the object-code decision tree.  Note the tree has no default
arm at the second-digit level: object codes 10/16/18/19xx, 20/22/23/24/27/28/
29xx and 30/31/33..37xx fall through and contribute nothing. -/
def npProcessRow (mapping : Mapping) (s : NetPosition) (r : Row) : NetPosition :=
  match mapping.lookup r.account_code with
  | none => s
  | some _ =>
    let oc := npObjectCode r.account_code
    let a := r.current_year_actual
    if startsWithL oc ['1'] then
      if startsWithL oc ['1', '1'] then
        { s with cash_and_cash_equivalents := s.cash_and_cash_equivalents + a }
      else if startsWithL oc ['1', '2'] then
        if oc == ['1', '2', '2', '5'] then
          { s with property_taxes_receivable := s.property_taxes_receivable + a }
        else if oc == ['1', '2', '4', '0'] then
          { s with due_from_other_governments := s.due_from_other_governments + a }
        else if oc == ['1', '2', '6', '7'] then
          { s with due_from_fiduciary := s.due_from_fiduciary + a }
        else
          { s with other_receivables := s.other_receivables + a }
      else if startsWithL oc ['1', '3'] then
        { s with inventories := s.inventories + a }
      else if startsWithL oc ['1', '4'] then
        { s with unrealized_expenses := s.unrealized_expenses + a }
      else if startsWithL oc ['1', '5'] then
        if oc == ['1', '5', '1', '0'] then
          { s with capital_land := s.capital_land + a }
        else if oc == ['1', '5', '2', '0'] then
          { s with capital_buildings_improvements := s.capital_buildings_improvements + a }
        else if oc == ['1', '5', '3', '0'] then
          { s with capital_furniture_equipment := s.capital_furniture_equipment + a }
        else if oc == ['1', '5', '8', '0'] then
          { s with capital_construction_in_progress := s.capital_construction_in_progress + a }
        else
          { s with capital_buildings_improvements := s.capital_buildings_improvements + a }
      else if startsWithL oc ['1', '7'] then
        if oc == ['1', '7', '0', '1'] then
          { s with deferred_charge_refunding := s.deferred_charge_refunding + a }
        else if oc == ['1', '7', '0', '5'] then
          { s with deferred_outflow_pensions := s.deferred_outflow_pensions + a }
        else if oc == ['1', '7', '0', '6'] then
          { s with deferred_outflow_opeb := s.deferred_outflow_opeb + a }
        else
          { s with deferred_charge_refunding := s.deferred_charge_refunding + a }
      else s
    else if startsWithL oc ['2'] then
      if startsWithL oc ['2', '1'] then
        if oc == ['2', '1', '1', '0'] then
          { s with accounts_payable := s.accounts_payable + a }
        else if oc == ['2', '1', '4', '0'] then
          { s with interest_payable := s.interest_payable + a }
        else if oc == ['2', '1', '6', '5'] then
          { s with accrued_liabilities := s.accrued_liabilities + a }
        else if oc == ['2', '1', '8', '0'] then
          { s with due_to_other_governments := s.due_to_other_governments + a }
        else if oc == ['2', '3', '0', '0'] then
          { s with unearned_revenue := s.unearned_revenue + a }
        else
          { s with accounts_payable := s.accounts_payable + a }
      else if startsWithL oc ['2', '5'] then
        if oc == ['2', '5', '0', '1'] then
          { s with due_within_one_year := s.due_within_one_year + a }
        else if oc == ['2', '5', '0', '2'] then
          { s with due_more_than_one_year := s.due_more_than_one_year + a }
        else if oc == ['2', '5', '4', '0'] then
          { s with net_pension_liability := s.net_pension_liability + a }
        else if oc == ['2', '5', '4', '5'] then
          { s with net_opeb_liability := s.net_opeb_liability + a }
        else
          { s with due_more_than_one_year := s.due_more_than_one_year + a }
      else if startsWithL oc ['2', '6'] then
        if oc == ['2', '6', '0', '5'] then
          { s with deferred_inflow_pensions := s.deferred_inflow_pensions + a }
        else if oc == ['2', '6', '0', '6'] then
          { s with deferred_inflow_opeb := s.deferred_inflow_opeb + a }
        else
          { s with deferred_inflow_pensions := s.deferred_inflow_pensions + a }
      else s
    else if startsWithL oc ['3'] then
      if startsWithL oc ['3', '2'] then
        { s with net_investment_capital_assets := s.net_investment_capital_assets + a }
      else if startsWithL oc ['3', '8'] then
        if oc == ['3', '8', '2', '0'] then
          { s with restricted_state_federal_programs := s.restricted_state_federal_programs + a }
        else if oc == ['3', '8', '5', '0'] then
          { s with restricted_debt_service := s.restricted_debt_service + a }
        else
          { s with restricted_state_federal_programs := s.restricted_state_federal_programs + a }
      else if startsWithL oc ['3', '9'] then
        { s with unrestricted := s.unrestricted + a }
      else s
    else s

/-- Totals and balance validation of `generate_government_wide_net_position`:
each total is the literal sum of its leaf children, recomputed after the fold;
`balanced` is `abs(left - right) < 0.01`. -/
def npFinalize (s : NetPosition) : NetPosition :=
  let ta := s.cash_and_cash_equivalents + s.property_taxes_receivable +
    s.due_from_other_governments + s.due_from_fiduciary + s.other_receivables +
    s.inventories + s.unrealized_expenses + s.capital_land +
    s.capital_buildings_improvements + s.capital_furniture_equipment +
    s.capital_construction_in_progress
  let tdo := s.deferred_charge_refunding + s.deferred_outflow_pensions +
    s.deferred_outflow_opeb
  let tl := s.accounts_payable + s.interest_payable + s.accrued_liabilities +
    s.due_to_other_governments + s.unearned_revenue + s.due_within_one_year +
    s.due_more_than_one_year + s.net_pension_liability + s.net_opeb_liability
  let tdi := s.deferred_inflow_pensions + s.deferred_inflow_opeb
  let tnp := s.net_investment_capital_assets + s.restricted_state_federal_programs +
    s.restricted_debt_service + s.unrestricted
  { s with
    total_assets := ta
    total_deferred_outflows := tdo
    total_liabilities := tl
    total_deferred_inflows := tdi
    total_net_position := tnp
    left_side := ta + tdo
    right_side := tl + tdi + tnp
    balanced := decide (pyAbs ((ta + tdo) - (tl + tdi + tnp)) < mkRat 1 100) }

/-- Source `generate_government_wide_net_position` of main.py: fold the rows
through the routing tree, then compute totals and the balance check. -/
def generate_government_wide_net_position (df : List Row) (mapping : Mapping) : NetPosition :=
  npFinalize (df.foldl (npProcessRow mapping) netPositionInit)

lemma pyAbs_eq_abs (q : ℚ) : pyAbs q = |q| := by
  rcases le_or_lt 0 q with h | h
  · rw [abs_of_nonneg h]; simp [pyAbs, not_lt.mpr h]
  · rw [abs_of_neg h]; simp [pyAbs, h]

lemma mkRat_hundredth : mkRat 1 100 = 1 / 100 := by decide

/-- C5: in every generated Statement of Net Position the five totals are the
literal sums of their named leaf children, `left_side` and `right_side` are
the stated sums of totals, and `balanced` holds exactly when the two sides
differ by less than 0.01 in absolute value. -/
theorem net_position_totals_and_balance (df : List Row) (mapping : Mapping) :
    let s := generate_government_wide_net_position df mapping
    s.total_assets = s.cash_and_cash_equivalents + s.property_taxes_receivable +
      s.due_from_other_governments + s.due_from_fiduciary + s.other_receivables +
      s.inventories + s.unrealized_expenses + s.capital_land +
      s.capital_buildings_improvements + s.capital_furniture_equipment +
      s.capital_construction_in_progress
    ∧ s.total_deferred_outflows = s.deferred_charge_refunding +
      s.deferred_outflow_pensions + s.deferred_outflow_opeb
    ∧ s.total_liabilities = s.accounts_payable + s.interest_payable +
      s.accrued_liabilities + s.due_to_other_governments + s.unearned_revenue +
      s.due_within_one_year + s.due_more_than_one_year + s.net_pension_liability +
      s.net_opeb_liability
    ∧ s.total_deferred_inflows = s.deferred_inflow_pensions + s.deferred_inflow_opeb
    ∧ s.total_net_position = s.net_investment_capital_assets +
      s.restricted_state_federal_programs + s.restricted_debt_service + s.unrestricted
    ∧ s.left_side = s.total_assets + s.total_deferred_outflows
    ∧ s.right_side = s.total_liabilities + s.total_deferred_inflows + s.total_net_position
    ∧ (s.balanced = true ↔ |s.left_side - s.right_side| < 1 / 100) := by
  refine ⟨rfl, rfl, rfl, rfl, rfl, rfl, rfl, ?_⟩
  have h : (generate_government_wide_net_position df mapping).balanced = true ↔
      pyAbs ((generate_government_wide_net_position df mapping).left_side -
        (generate_government_wide_net_position df mapping).right_side) < mkRat 1 100 :=
    decide_eq_true_iff
  rw [pyAbs_eq_abs, mkRat_hundredth] at h
  exact h

lemma take_two_shape {l : Str} {a b : Char} (h : l.take 2 = [a, b]) :
    ∃ t, l = a :: b :: t := by
  match l with
  | [] => simp at h
  | [x] => simp at h
  | x :: y :: t =>
    simp [List.take] at h
    exact ⟨t, by rw [h.1, h.2]⟩

/-- The 29 leaf line items of the Statement of Net Position, as single-leaf
updates: `npUpdateLeaf s i a` adds `a` to the `i`-th leaf of `s` and changes
nothing else (and is the identity for `i ≥ 29`). -/
def npUpdateLeaf (s : NetPosition) (i : Nat) (a : ℚ) : NetPosition :=
  match i with
  | 0 => { s with cash_and_cash_equivalents := s.cash_and_cash_equivalents + a }
  | 1 => { s with property_taxes_receivable := s.property_taxes_receivable + a }
  | 2 => { s with due_from_other_governments := s.due_from_other_governments + a }
  | 3 => { s with due_from_fiduciary := s.due_from_fiduciary + a }
  | 4 => { s with other_receivables := s.other_receivables + a }
  | 5 => { s with inventories := s.inventories + a }
  | 6 => { s with unrealized_expenses := s.unrealized_expenses + a }
  | 7 => { s with capital_land := s.capital_land + a }
  | 8 => { s with capital_buildings_improvements := s.capital_buildings_improvements + a }
  | 9 => { s with capital_furniture_equipment := s.capital_furniture_equipment + a }
  | 10 => { s with capital_construction_in_progress := s.capital_construction_in_progress + a }
  | 11 => { s with deferred_charge_refunding := s.deferred_charge_refunding + a }
  | 12 => { s with deferred_outflow_pensions := s.deferred_outflow_pensions + a }
  | 13 => { s with deferred_outflow_opeb := s.deferred_outflow_opeb + a }
  | 14 => { s with accounts_payable := s.accounts_payable + a }
  | 15 => { s with interest_payable := s.interest_payable + a }
  | 16 => { s with accrued_liabilities := s.accrued_liabilities + a }
  | 17 => { s with due_to_other_governments := s.due_to_other_governments + a }
  | 18 => { s with unearned_revenue := s.unearned_revenue + a }
  | 19 => { s with due_within_one_year := s.due_within_one_year + a }
  | 20 => { s with due_more_than_one_year := s.due_more_than_one_year + a }
  | 21 => { s with net_pension_liability := s.net_pension_liability + a }
  | 22 => { s with net_opeb_liability := s.net_opeb_liability + a }
  | 23 => { s with deferred_inflow_pensions := s.deferred_inflow_pensions + a }
  | 24 => { s with deferred_inflow_opeb := s.deferred_inflow_opeb + a }
  | 25 => { s with net_investment_capital_assets := s.net_investment_capital_assets + a }
  | 26 => { s with restricted_state_federal_programs := s.restricted_state_federal_programs + a }
  | 27 => { s with restricted_debt_service := s.restricted_debt_service + a }
  | 28 => { s with unrestricted := s.unrestricted + a }
  | _ => s

/-- The two-digit object-code ranges that the net-position routing tree
actually handles (all other 1xxx/2xxx/3xxx codes fall through). -/
def npRecognizedTwoDigit : List Str :=
  [['1', '1'], ['1', '2'], ['1', '3'], ['1', '4'], ['1', '5'], ['1', '7'],
    ['2', '1'], ['2', '5'], ['2', '6'], ['3', '2'], ['3', '8'], ['3', '9']]

/-- Modelled from the amended claim (C1): the leaf index (as numbered by
`npUpdateLeaf`) the net-position tree routes an object code to — 0
cash_and_cash_equivalents, 1 property_taxes_receivable, 2
due_from_other_governments, 3 due_from_fiduciary, 4 other_receivables, 5
inventories, 6 unrealized_expenses, 7 capital_land, 8
capital_buildings_improvements, 9 capital_furniture_equipment, 10
capital_construction_in_progress, 11 deferred_charge_refunding, 12
deferred_outflow_pensions, 13 deferred_outflow_opeb, 14 accounts_payable, 15
interest_payable, 16 accrued_liabilities, 17 due_to_other_governments, 18
unearned_revenue, 19 due_within_one_year, 20 due_more_than_one_year, 21
net_pension_liability, 22 net_opeb_liability, 23 deferred_inflow_pensions, 24
deferred_inflow_opeb, 25 net_investment_capital_assets, 26
restricted_state_federal_programs, 27 restricted_debt_service, 28
unrestricted; 29 marks a dropped code (no recognized range).  Finer codes
with no exact rule land in their branch's default bucket: unrecognized 15xx
at 8 (buildings and improvements), 17xx at 11, 21xx at 14 (accounts payable),
25xx at 20, 26xx at 23, 38xx at 26. -/
def npRoute (oc : Str) : Nat :=
  if startsWithL oc ['1', '1'] then 0
  else if startsWithL oc ['1', '2'] then
    if oc == ['1', '2', '2', '5'] then 1
    else if oc == ['1', '2', '4', '0'] then 2
    else if oc == ['1', '2', '6', '7'] then 3
    else 4
  else if startsWithL oc ['1', '3'] then 5
  else if startsWithL oc ['1', '4'] then 6
  else if startsWithL oc ['1', '5'] then
    if oc == ['1', '5', '1', '0'] then 7
    else if oc == ['1', '5', '2', '0'] then 8
    else if oc == ['1', '5', '3', '0'] then 9
    else if oc == ['1', '5', '8', '0'] then 10
    else 8
  else if startsWithL oc ['1', '7'] then
    if oc == ['1', '7', '0', '1'] then 11
    else if oc == ['1', '7', '0', '5'] then 12
    else if oc == ['1', '7', '0', '6'] then 13
    else 11
  else if startsWithL oc ['2', '1'] then
    if oc == ['2', '1', '1', '0'] then 14
    else if oc == ['2', '1', '4', '0'] then 15
    else if oc == ['2', '1', '6', '5'] then 16
    else if oc == ['2', '1', '8', '0'] then 17
    else if oc == ['2', '3', '0', '0'] then 18
    else 14
  else if startsWithL oc ['2', '5'] then
    if oc == ['2', '5', '0', '1'] then 19
    else if oc == ['2', '5', '0', '2'] then 20
    else if oc == ['2', '5', '4', '0'] then 21
    else if oc == ['2', '5', '4', '5'] then 22
    else 20
  else if startsWithL oc ['2', '6'] then
    if oc == ['2', '6', '0', '5'] then 23
    else if oc == ['2', '6', '0', '6'] then 24
    else 23
  else if startsWithL oc ['3', '2'] then 25
  else if startsWithL oc ['3', '8'] then
    if oc == ['3', '8', '2', '0'] then 26
    else if oc == ['3', '8', '5', '0'] then 27
    else 26
  else if startsWithL oc ['3', '9'] then 28
  else 29

lemma startsWithL_shape2 {l : Str} {a b : Char} (h : startsWithL l [a, b] = true) :
    ∃ t, l = a :: b :: t := by
  cases l with
  | nil => simp [startsWithL] at h
  | cons x xs =>
    cases xs with
    | nil => simp [startsWithL] at h
    | cons y ys =>
      simp [startsWithL] at h
      exact ⟨ys, by rw [h.1, h.2]⟩

lemma npRoute_default_15 (oc : Str) (h : startsWithL oc ['1', '5'] = true)
    (hn : oc ∉ [['1', '5', '1', '0'], ['1', '5', '2', '0'],
      ['1', '5', '3', '0'], ['1', '5', '8', '0']]) : npRoute oc = 8 := by
  obtain ⟨t, ht⟩ := startsWithL_shape2 h
  subst ht
  simp at hn
  obtain ⟨h1, h2, h3, h4⟩ := hn
  simp [npRoute, startsWithL, h1, h2, h3, h4]

lemma npRoute_default_21 (oc : Str) (h : startsWithL oc ['2', '1'] = true)
    (hn : oc ∉ [['2', '1', '1', '0'], ['2', '1', '4', '0'], ['2', '1', '6', '5'],
      ['2', '1', '8', '0'], ['2', '3', '0', '0']]) : npRoute oc = 14 := by
  obtain ⟨t, ht⟩ := startsWithL_shape2 h
  subst ht
  simp at hn
  obtain ⟨h1, h2, h3, h4⟩ := hn
  simp [npRoute, startsWithL, h1, h2, h3, h4]

set_option linter.unreachableTactic false in
set_option linter.unusedTactic false in
/-- C1 (amended): for a mapped row whose object code starts with one of the
two-digit ranges the net-position tree recognizes (11-15, 17, 21, 25, 26, 32,
38, 39), the row's amount is added to exactly one leaf line item, the one
`npRoute` names — so finer codes with no exact rule land in their branch's
default bucket; in particular an unrecognized 15xx code lands in leaf 8,
capital_assets.buildings_improvements, and an unrecognized 21xx code in leaf
14, accounts_payable.  (Object codes whose first digit is 1, 2 or 3 but whose
two-digit range is not in this list — e.g. 16xx, 22xx, 30xx — are dropped by
the tree, which is what the counterexample shows against the original
claim.) -/
theorem npProcessRow_adds_to_exactly_one_leaf (m : Mapping) (s : NetPosition)
    (code : String) (a : ℚ)
    (hm : (m.lookup code).isSome = true)
    (hp : (npObjectCode code).take 2 ∈ npRecognizedTwoDigit) :
    npRoute (npObjectCode code) < 29
    ∧ npProcessRow m s ⟨code, a⟩ = npUpdateLeaf s (npRoute (npObjectCode code)) a
    ∧ (startsWithL (npObjectCode code) ['1', '5'] = true ∧
        npObjectCode code ∉ [['1', '5', '1', '0'], ['1', '5', '2', '0'],
          ['1', '5', '3', '0'], ['1', '5', '8', '0']] →
        npRoute (npObjectCode code) = 8)
    ∧ (startsWithL (npObjectCode code) ['2', '1'] = true ∧
        npObjectCode code ∉ [['2', '1', '1', '0'], ['2', '1', '4', '0'],
          ['2', '1', '6', '5'], ['2', '1', '8', '0'], ['2', '3', '0', '0']] →
        npRoute (npObjectCode code) = 14) := by
  obtain ⟨e, he⟩ := Option.isSome_iff_exists.mp hm
  simp only [npRecognizedTwoDigit, List.mem_cons, List.not_mem_nil, or_false] at hp
  have hlt : npRoute (npObjectCode code) < 29 := by
    rcases hp with h | h | h | h | h | h | h | h | h | h | h | h <;>
    · obtain ⟨t, ht⟩ := take_two_shape h
      rw [ht]
      simp [npRoute, startsWithL]
      repeat' split
      all_goals norm_num
  have heq : npProcessRow m s ⟨code, a⟩ = npUpdateLeaf s (npRoute (npObjectCode code)) a := by
    rcases hp with h | h | h | h | h | h | h | h | h | h | h | h <;>
    · obtain ⟨t, ht⟩ := take_two_shape h
      simp only [npProcessRow, he, ht]
      simp [startsWithL, npRoute]
      repeat' split
      all_goals first
        | rfl
        | simp_all [npUpdateLeaf]
  exact ⟨hlt, heq,
    fun hc => npRoute_default_15 _ hc.1 hc.2,
    fun hc => npRoute_default_21 _ hc.1 hc.2⟩

/-- C1 witness: the default-bucket case — a mapped row with object code "1599"
(capital-assets range, no exact rule) is routed into exactly the leaf npRoute
names, and that leaf is number 8, capital_assets.buildings_improvements. -/
theorem npProcessRow_adds_to_exactly_one_leaf_witness :
    npRoute (npObjectCode "000001599") = 8
    ∧ npProcessRow [("000001599", ⟨"Assets", "capital_assets", "general_fund"⟩)]
        netPositionInit ⟨"000001599", 7⟩ =
      npUpdateLeaf netPositionInit (npRoute (npObjectCode "000001599")) 7 :=
  ⟨by decide,
    (npProcessRow_adds_to_exactly_one_leaf _ netPositionInit "000001599" 7
      (by decide) (by decide)).2.1⟩

/-- C1 counterexample: a mapped row whose object code "2200" begins with '2'
(a known top-level range of the Statement of Net Position) is dropped — the
statement generated with the row present equals the statement generated with
it removed, so its amount is added to no leaf line item. -/
theorem npC1_counterexample :
    npObjectCode "000002200" = ['2', '2', '0', '0']
    ∧ (([("000002200", ⟨"Liabilities", "current_liabilities", "general_fund"⟩)] :
        Mapping).lookup "000002200").isSome = true
    ∧ generate_government_wide_net_position [⟨"000002200", 5⟩]
        [("000002200", ⟨"Liabilities", "current_liabilities", "general_fund"⟩)] =
      generate_government_wide_net_position []
        [("000002200", ⟨"Liabilities", "current_liabilities", "general_fund"⟩)] :=
  ⟨by decide, by decide, rfl⟩

/-- One program row of the Statement of Activities (expenses, charges for
services, operating grants, and the derived net expense/revenue). -/
structure ProgramLine where
  expenses : ℚ
  charges_for_services : ℚ
  operating_grants : ℚ
  net_expense_revenue : ℚ
deriving DecidableEq

/-- The zero program line. -/
def programLineZero : ProgramLine := ⟨0, 0, 0, 0⟩

/-- The Statement of Activities of main.py
(`generate_government_wide_activities`), flattened: the 21 program functions,
the two total rows, the general-revenues section (`gr_` fields) and the
net-position section.  Field names follow the nested dict keys of the
source. -/
structure Activities where
  instruction : ProgramLine
  instructional_resources : ProgramLine
  curriculum_staff_dev : ProgramLine
  instructional_leadership : ProgramLine
  school_leadership : ProgramLine
  guidance_counseling : ProgramLine
  social_work : ProgramLine
  health_services : ProgramLine
  student_transportation : ProgramLine
  food_service : ProgramLine
  cocurricular : ProgramLine
  general_admin : ProgramLine
  facilities_maintenance : ProgramLine
  security_monitoring : ProgramLine
  data_processing : ProgramLine
  community_services : ProgramLine
  interest_long_term_debt : ProgramLine
  bond_issuance_costs : ProgramLine
  capital_outlay : ProgramLine
  shared_services : ProgramLine
  other_intergovernmental : ProgramLine
  total_governmental : ProgramLine
  total_primary : ProgramLine
  gr_property_taxes_general : ℚ
  gr_property_taxes_debt : ℚ
  gr_chapter_313_payments : ℚ
  gr_investment_earnings : ℚ
  gr_grants_contributions : ℚ
  gr_miscellaneous : ℚ
  gr_total_general_revenues : ℚ
  change_in_net_position : ℚ
  net_position_beginning : ℚ
  net_position_ending : ℚ
deriving DecidableEq

/-- The zero-initialized Statement of Activities template of main.py. -/
def activitiesInit : Activities :=
  ⟨programLineZero, programLineZero, programLineZero, programLineZero,
    programLineZero, programLineZero, programLineZero, programLineZero,
    programLineZero, programLineZero, programLineZero, programLineZero,
    programLineZero, programLineZero, programLineZero, programLineZero,
    programLineZero, programLineZero, programLineZero, programLineZero,
    programLineZero, programLineZero, programLineZero,
    0, 0, 0, 0, 0, 0, 0, 0, 0, 0⟩

/-- Function-code extraction of the activities generator: Python
`account_code[3:5] if len(account_code) >= 5 else '00'`. -/
def actFunctionCode (code : String) : Str :=
  if 5 ≤ code.length then sliceL code.toList 3 5 else ['0', '0']

/-- Add to a program's `expenses`. -/
def addExpenses (p : ProgramLine) (a : ℚ) : ProgramLine :=
  { p with expenses := p.expenses + a }

/-- Per-row accumulation of `generate_government_wide_activities` in main.py:
skip unmapped rows; route expense rows by function code, program-revenue rows
into charges/grants, and general-revenue rows through the substring-keyword
chain on the account code and the lower-cased TEA category. -/
def actProcessRow (mapping : Mapping) (s : Activities) (r : Row) : Activities :=
  match mapping.lookup r.account_code with
  | none => s
  | some e =>
    let a := r.current_year_actual
    if e.gasb_category == "program_expenses" || e.gasb_category == "general_expenses" then
      let fc := actFunctionCode r.account_code
      if fc == ['1', '1'] then { s with instruction := addExpenses s.instruction a }
      else if fc == ['1', '2'] then
        { s with instructional_resources := addExpenses s.instructional_resources a }
      else if fc == ['1', '3'] then
        { s with curriculum_staff_dev := addExpenses s.curriculum_staff_dev a }
      else if fc == ['2', '1'] then
        { s with instructional_leadership := addExpenses s.instructional_leadership a }
      else if fc == ['2', '3'] then
        { s with school_leadership := addExpenses s.school_leadership a }
      else if fc == ['3', '1'] then
        { s with guidance_counseling := addExpenses s.guidance_counseling a }
      else if fc == ['3', '2'] then
        { s with social_work := addExpenses s.social_work a }
      else if fc == ['3', '3'] then
        { s with health_services := addExpenses s.health_services a }
      else if fc == ['3', '4'] then
        { s with student_transportation := addExpenses s.student_transportation a }
      else if fc == ['3', '5'] then
        { s with food_service := addExpenses s.food_service a }
      else if fc == ['3', '6'] then
        { s with cocurricular := addExpenses s.cocurricular a }
      else if fc == ['4', '1'] then
        { s with general_admin := addExpenses s.general_admin a }
      else if fc == ['5', '1'] then
        { s with facilities_maintenance := addExpenses s.facilities_maintenance a }
      else if fc == ['5', '2'] then
        { s with security_monitoring := addExpenses s.security_monitoring a }
      else if fc == ['5', '3'] then
        { s with data_processing := addExpenses s.data_processing a }
      else if fc == ['6', '1'] then
        { s with community_services := addExpenses s.community_services a }
      else if fc == ['7', '2'] then
        { s with interest_long_term_debt := addExpenses s.interest_long_term_debt a }
      else if fc == ['7', '3'] then
        { s with bond_issuance_costs := addExpenses s.bond_issuance_costs a }
      else if fc == ['8', '1'] then
        { s with capital_outlay := addExpenses s.capital_outlay a }
      else if fc == ['9', '3'] then
        { s with shared_services := addExpenses s.shared_services a }
      else if fc == ['9', '9'] then
        { s with other_intergovernmental := addExpenses s.other_intergovernmental a }
      else
        { s with general_admin := addExpenses s.general_admin a }
    else if e.gasb_category == "program_revenues" then
      let fc := actFunctionCode r.account_code
      if fc == ['3', '6'] then
        { s with cocurricular :=
          { s.cocurricular with charges_for_services := s.cocurricular.charges_for_services + a } }
      else if fc == ['1', '1'] then
        { s with instruction :=
          { s.instruction with operating_grants := s.instruction.operating_grants + a } }
      else
        { s with instruction :=
          { s.instruction with operating_grants := s.instruction.operating_grants + a } }
    else if e.gasb_category == "general_revenues" then
      if containsL r.account_code.toList ['M', 'T'] ||
          containsL (lowerL e.tea_category.toList)
            ['p', 'r', 'o', 'p', 'e', 'r', 't', 'y'] then
        { s with gr_property_taxes_general := s.gr_property_taxes_general + a }
      else if containsL r.account_code.toList ['D', 'T'] ||
          containsL (lowerL e.tea_category.toList) ['d', 'e', 'b', 't'] then
        { s with gr_property_taxes_debt := s.gr_property_taxes_debt + a }
      else if containsL r.account_code.toList ['3', '1', '3'] ||
          containsL (lowerL e.tea_category.toList)
            ['c', 'h', 'a', 'p', 't', 'e', 'r'] then
        { s with gr_chapter_313_payments := s.gr_chapter_313_payments + a }
      else if containsL r.account_code.toList ['I', 'E'] ||
          containsL (lowerL e.tea_category.toList)
            ['i', 'n', 'v', 'e', 's', 't', 'm', 'e', 'n', 't'] then
        { s with gr_investment_earnings := s.gr_investment_earnings + a }
      else if containsL r.account_code.toList ['G', 'C'] ||
          containsL (lowerL e.tea_category.toList) ['g', 'r', 'a', 'n', 't'] then
        { s with gr_grants_contributions := s.gr_grants_contributions + a }
      else if containsL r.account_code.toList ['M', 'I'] ||
          containsL (lowerL e.tea_category.toList)
            ['m', 'i', 's', 'c', 'e', 'l', 'l', 'a', 'n', 'e', 'o', 'u', 's'] then
        { s with gr_miscellaneous := s.gr_miscellaneous + a }
      else
        { s with gr_miscellaneous := s.gr_miscellaneous + a }
    else s

/-- Net expense/revenue of one program: `expenses − charges − grants`. -/
def programNet (p : ProgramLine) : ProgramLine :=
  { p with net_expense_revenue := p.expenses - p.charges_for_services - p.operating_grants }

/-- Totals of `generate_government_wide_activities`: per-program net
expense/revenue, column totals over the 21 programs (copied into both total
rows), total general revenues, change in net position, and the hardcoded
beginning net position 37913236. -/
def actFinalize (s : Activities) : Activities :=
  let instruction := programNet s.instruction
  let instructional_resources := programNet s.instructional_resources
  let curriculum_staff_dev := programNet s.curriculum_staff_dev
  let instructional_leadership := programNet s.instructional_leadership
  let school_leadership := programNet s.school_leadership
  let guidance_counseling := programNet s.guidance_counseling
  let social_work := programNet s.social_work
  let health_services := programNet s.health_services
  let student_transportation := programNet s.student_transportation
  let food_service := programNet s.food_service
  let cocurricular := programNet s.cocurricular
  let general_admin := programNet s.general_admin
  let facilities_maintenance := programNet s.facilities_maintenance
  let security_monitoring := programNet s.security_monitoring
  let data_processing := programNet s.data_processing
  let community_services := programNet s.community_services
  let interest_long_term_debt := programNet s.interest_long_term_debt
  let bond_issuance_costs := programNet s.bond_issuance_costs
  let capital_outlay := programNet s.capital_outlay
  let shared_services := programNet s.shared_services
  let other_intergovernmental := programNet s.other_intergovernmental
  let progs := [instruction, instructional_resources, curriculum_staff_dev,
    instructional_leadership, school_leadership, guidance_counseling, social_work,
    health_services, student_transportation, food_service, cocurricular,
    general_admin, facilities_maintenance, security_monitoring, data_processing,
    community_services, interest_long_term_debt, bond_issuance_costs,
    capital_outlay, shared_services, other_intergovernmental]
  let total_expenses := (progs.map ProgramLine.expenses).sum
  let total_charges := (progs.map ProgramLine.charges_for_services).sum
  let total_grants := (progs.map ProgramLine.operating_grants).sum
  let total_net_expense := (progs.map ProgramLine.net_expense_revenue).sum
  let totals : ProgramLine := ⟨total_expenses, total_charges, total_grants, total_net_expense⟩
  let total_general_revenues := s.gr_property_taxes_general + s.gr_property_taxes_debt +
    s.gr_chapter_313_payments + s.gr_investment_earnings + s.gr_grants_contributions +
    s.gr_miscellaneous
  let change_in_net_position := total_general_revenues + total_net_expense
  { s with
    instruction := instruction
    instructional_resources := instructional_resources
    curriculum_staff_dev := curriculum_staff_dev
    instructional_leadership := instructional_leadership
    school_leadership := school_leadership
    guidance_counseling := guidance_counseling
    social_work := social_work
    health_services := health_services
    student_transportation := student_transportation
    food_service := food_service
    cocurricular := cocurricular
    general_admin := general_admin
    facilities_maintenance := facilities_maintenance
    security_monitoring := security_monitoring
    data_processing := data_processing
    community_services := community_services
    interest_long_term_debt := interest_long_term_debt
    bond_issuance_costs := bond_issuance_costs
    capital_outlay := capital_outlay
    shared_services := shared_services
    other_intergovernmental := other_intergovernmental
    total_governmental := totals
    total_primary := totals
    gr_total_general_revenues := total_general_revenues
    change_in_net_position := change_in_net_position
    net_position_beginning := 37913236
    net_position_ending := 37913236 + change_in_net_position }

/-- Source `generate_government_wide_activities` of main.py: fold the rows
through the routing logic, then compute program nets, totals and the
net-position section. -/
def generate_government_wide_activities (df : List Row) (mapping : Mapping) : Activities :=
  actFinalize (df.foldl (actProcessRow mapping) activitiesInit)

/-- A per-fund pair of amounts: the General Fund column and the Non-Major
Funds column of the governmental-funds statements. -/
structure FundCell where
  general_fund : ℚ
  non_major_funds : ℚ
deriving DecidableEq

/-- The zero cell. -/
def fundCellZero : FundCell := ⟨0, 0⟩

/-- Add an amount to the column selected by the fund key (`true` = general
fund). -/
def FundCell.bump (c : FundCell) (g : Bool) (a : ℚ) : FundCell :=
  if g then { c with general_fund := c.general_fund + a }
  else { c with non_major_funds := c.non_major_funds + a }

/-- Componentwise sum of two cells (used for the per-fund totals, which the
source computes once per fund column). -/
def FundCell.plus (c d : FundCell) : FundCell :=
  ⟨c.general_fund + d.general_fund, c.non_major_funds + d.non_major_funds⟩


/-- The `add_sum` helper of the funds generators in main.py: add the row's
amount into a leaf when the row satisfies the mask (here per row: apply the
bump when the mask bit holds). -/
def addSum {α : Type} (mask : Bool) (f : α → α) (s : α) : α :=
  if mask then f s else s

/-- Fund-key derivation of the two funds generators in main.py: with an empty
mapping every row gets `fund_category = 'general_fund'`; otherwise the row is
left-merged with the mapping and the key is `general_fund` exactly when its
entry exists and carries `fund_category == 'general_fund'` (a missing entry
yields NaN, which is not `'general_fund'`, hence non-major). -/
def fundKeyIsGeneral (mapping : Mapping) (code : String) : Bool :=
  if mapping.isEmpty then true
  else
    match mapping.lookup code with
    | some e => e.fund_category == "general_fund"
    | none => false

/-- The Balance Sheet - Governmental Funds of main.py
(`generate_governmental_funds_balance`), flattened; fund-balance leaves are
prefixed `fb_`.  Field names follow the nested dict keys of the source. -/
structure FundsBalance where
  cash_and_equivalents : FundCell
  taxes_receivable : FundCell
  due_from_other_governments : FundCell
  due_from_other_funds : FundCell
  other_receivables : FundCell
  inventories : FundCell
  unrealized_expenditures : FundCell
  total_assets : FundCell
  accounts_payable : FundCell
  payroll_deductions : FundCell
  accrued_wages : FundCell
  due_to_other_funds : FundCell
  due_to_other_governments : FundCell
  unearned_revenue : FundCell
  total_liabilities : FundCell
  unavailable_revenue_property_taxes : FundCell
  total_deferred_inflows : FundCell
  fb_inventories : FundCell
  fb_prepaid_items : FundCell
  fb_federal_state_funds : FundCell
  fb_retirement_long_term_debt : FundCell
  fb_other_restrictions : FundCell
  fb_construction : FundCell
  fb_other_committed : FundCell
  fb_other_assigned : FundCell
  fb_unassigned : FundCell
  total_fund_balances : FundCell
  total_liabilities_deferred_fund_balances : FundCell
deriving DecidableEq

/-- The zero-initialized Balance Sheet template of main.py. -/
def fundsBalanceInit : FundsBalance :=
  ⟨fundCellZero, fundCellZero, fundCellZero, fundCellZero, fundCellZero,
    fundCellZero, fundCellZero, fundCellZero, fundCellZero, fundCellZero,
    fundCellZero, fundCellZero, fundCellZero, fundCellZero, fundCellZero,
    fundCellZero, fundCellZero, fundCellZero, fundCellZero, fundCellZero,
    fundCellZero, fundCellZero, fundCellZero, fundCellZero, fundCellZero,
    fundCellZero, fundCellZero, fundCellZero⟩

set_option maxHeartbeats 1000000 in
/-- Per-row accumulation of `generate_governmental_funds_balance` in main.py:
each `add_sum` mask of the source becomes a conditional bump of the
corresponding leaf cell (the masks are applied to every row, mapped or not;
the object code is the unguarded pandas slice `[5:9]`). -/
def fbProcessRow (mapping : Mapping) (s : FundsBalance) (r : Row) : FundsBalance :=
  let oc := sliceL r.account_code.toList 5 9
  let g := fundKeyIsGeneral mapping r.account_code
  let a := r.current_year_actual
  s
  |> addSum (startsWithL oc ['1', '1'])
    (fun t => { t with cash_and_equivalents := t.cash_and_equivalents.bump g a })
  |> addSum (oc == ['1', '2', '2', '5'])
    (fun t => { t with taxes_receivable := t.taxes_receivable.bump g a })
  |> addSum (oc == ['1', '2', '4', '0'])
    (fun t => { t with due_from_other_governments := t.due_from_other_governments.bump g a })
  |> addSum (oc == ['1', '2', '6', '0'])
    (fun t => { t with due_from_other_funds := t.due_from_other_funds.bump g a })
  |> addSum (startsWithL oc ['1', '2'] &&
      !([['1', '2', '2', '5'], ['1', '2', '4', '0'], ['1', '2', '6', '0']].contains oc))
    (fun t => { t with other_receivables := t.other_receivables.bump g a })
  |> addSum (startsWithL oc ['1', '3'])
    (fun t => { t with inventories := t.inventories.bump g a })
  |> addSum (startsWithL oc ['1', '4'])
    (fun t => { t with unrealized_expenditures := t.unrealized_expenditures.bump g a })
  |> addSum (oc == ['2', '1', '1', '0'])
    (fun t => { t with accounts_payable := t.accounts_payable.bump g a })
  |> addSum (oc == ['2', '1', '5', '0'])
    (fun t => { t with payroll_deductions := t.payroll_deductions.bump g a })
  |> addSum (oc == ['2', '1', '6', '0'])
    (fun t => { t with accrued_wages := t.accrued_wages.bump g a })
  |> addSum (oc == ['2', '1', '7', '0'])
    (fun t => { t with due_to_other_funds := t.due_to_other_funds.bump g a })
  |> addSum (oc == ['2', '1', '8', '0'])
    (fun t => { t with due_to_other_governments := t.due_to_other_governments.bump g a })
  |> addSum (oc == ['2', '3', '0', '0'])
    (fun t => { t with unearned_revenue := t.unearned_revenue.bump g a })
  |> addSum (oc == ['2', '6', '0', '1'] || startsWithL oc ['2', '6'])
    (fun t => { t with unavailable_revenue_property_taxes :=
        t.unavailable_revenue_property_taxes.bump g a })
  |> addSum (oc == ['3', '4', '1', '0'])
    (fun t => { t with fb_inventories := t.fb_inventories.bump g a })
  |> addSum (oc == ['3', '4', '3', '0'])
    (fun t => { t with fb_prepaid_items := t.fb_prepaid_items.bump g a })
  |> addSum (oc == ['3', '4', '5', '0'])
    (fun t => { t with fb_federal_state_funds := t.fb_federal_state_funds.bump g a })
  |> addSum (oc == ['3', '4', '8', '0'])
    (fun t => { t with fb_retirement_long_term_debt := t.fb_retirement_long_term_debt.bump g a })
  |> addSum (oc == ['3', '4', '9', '0'] || (startsWithL oc ['3', '4'] &&
      !([['3', '4', '1', '0'], ['3', '4', '3', '0'], ['3', '4', '5', '0'],
        ['3', '4', '8', '0']].contains oc)))
    (fun t => { t with fb_other_restrictions := t.fb_other_restrictions.bump g a })
  |> addSum (oc == ['3', '5', '1', '0'])
    (fun t => { t with fb_construction := t.fb_construction.bump g a })
  |> addSum (oc == ['3', '5', '4', '5'])
    (fun t => { t with fb_other_committed := t.fb_other_committed.bump g a })
  |> addSum (oc == ['3', '5', '9', '0'] || (startsWithL oc ['3', '5'] &&
      !([['3', '5', '1', '0'], ['3', '5', '4', '5'], ['3', '5', '9', '0']].contains oc)))
    (fun t => { t with fb_other_assigned := t.fb_other_assigned.bump g a })
  |> addSum (startsWithL oc ['3', '6'])
    (fun t => { t with fb_unassigned := t.fb_unassigned.bump g a })

/-- Totals of `generate_governmental_funds_balance`, computed per fund
column after the aggregation. -/
def fbFinalize (s : FundsBalance) : FundsBalance :=
  let ta := (s.cash_and_equivalents.plus (s.taxes_receivable.plus
    (s.due_from_other_governments.plus (s.due_from_other_funds.plus
    (s.other_receivables.plus (s.inventories.plus s.unrealized_expenditures))))))
  let tl := (s.accounts_payable.plus (s.payroll_deductions.plus
    (s.accrued_wages.plus (s.due_to_other_funds.plus
    (s.due_to_other_governments.plus s.unearned_revenue)))))
  let tdi := s.unavailable_revenue_property_taxes
  let tfb := (s.fb_inventories.plus (s.fb_prepaid_items.plus
    (s.fb_federal_state_funds.plus (s.fb_retirement_long_term_debt.plus
    (s.fb_other_restrictions.plus (s.fb_construction.plus
    (s.fb_other_committed.plus (s.fb_other_assigned.plus s.fb_unassigned))))))))
  { s with
    total_assets := ta
    total_liabilities := tl
    total_deferred_inflows := tdi
    total_fund_balances := tfb
    total_liabilities_deferred_fund_balances := tl.plus (tdi.plus tfb) }

/-- Source `generate_governmental_funds_balance` of main.py: the empty trial
balance returns the zero template unchanged; otherwise aggregate every row
(mapped or not) and compute the per-fund totals. -/
def generate_governmental_funds_balance (df : List Row) (mapping : Mapping) : FundsBalance :=
  if df.isEmpty then fundsBalanceInit
  else fbFinalize (df.foldl (fbProcessRow mapping) fundsBalanceInit)

/-- The Statement of Revenues, Expenditures, and Changes in Fund Balances of
main.py (`generate_governmental_funds_revenues_expenditures`), flattened;
other-financing leaves are prefixed `of_` and fund balances `fb_`. -/
structure FundsRevExp where
  local_intermediate_sources : FundCell
  state_program_revenues : FundCell
  federal_program_revenues : FundCell
  total_revenues : FundCell
  instruction : FundCell
  instructional_resources : FundCell
  curriculum_staff_dev : FundCell
  instructional_leadership : FundCell
  school_leadership : FundCell
  guidance_counseling : FundCell
  social_work : FundCell
  health_services : FundCell
  student_transportation : FundCell
  food_service : FundCell
  cocurricular : FundCell
  general_admin : FundCell
  facilities_maintenance : FundCell
  security_monitoring : FundCell
  data_processing : FundCell
  community_services : FundCell
  principal_long_term_debt : FundCell
  interest_long_term_debt : FundCell
  bond_issuance_costs : FundCell
  capital_outlay : FundCell
  shared_service_arrangements : FundCell
  other_intergovernmental : FundCell
  total_expenditures : FundCell
  excess_deficiency : FundCell
  of_sale_property : FundCell
  of_transfers_in : FundCell
  of_premium_bond_remarketing : FundCell
  of_other_resources : FundCell
  of_transfers_out : FundCell
  total_other_financing : FundCell
  net_change : FundCell
  fb_beginning : FundCell
  fb_ending : FundCell
deriving DecidableEq

/-- The zero-initialized Revenues/Expenditures template of main.py. -/
def fundsRevExpInit : FundsRevExp :=
  ⟨fundCellZero, fundCellZero, fundCellZero, fundCellZero, fundCellZero,
    fundCellZero, fundCellZero, fundCellZero, fundCellZero, fundCellZero,
    fundCellZero, fundCellZero, fundCellZero, fundCellZero, fundCellZero,
    fundCellZero, fundCellZero, fundCellZero, fundCellZero, fundCellZero,
    fundCellZero, fundCellZero, fundCellZero, fundCellZero, fundCellZero,
    fundCellZero, fundCellZero, fundCellZero, fundCellZero, fundCellZero,
    fundCellZero, fundCellZero, fundCellZero, fundCellZero, fundCellZero,
    fundCellZero, fundCellZero⟩

/-- Expenditure routing of the revenues/expenditures statement: the source's
`exp_map` dictionary of function codes, applied when the object code starts
with '6'; function codes outside the map fall into `general_admin`. -/
def reBumpExpenditure (s : FundsRevExp) (fc : Str) (g : Bool) (a : ℚ) : FundsRevExp :=
  if fc == ['1', '1'] then { s with instruction := s.instruction.bump g a }
  else if fc == ['1', '2'] then
    { s with instructional_resources := s.instructional_resources.bump g a }
  else if fc == ['1', '3'] then
    { s with curriculum_staff_dev := s.curriculum_staff_dev.bump g a }
  else if fc == ['2', '1'] then
    { s with instructional_leadership := s.instructional_leadership.bump g a }
  else if fc == ['2', '3'] then
    { s with school_leadership := s.school_leadership.bump g a }
  else if fc == ['3', '1'] then
    { s with guidance_counseling := s.guidance_counseling.bump g a }
  else if fc == ['3', '2'] then { s with social_work := s.social_work.bump g a }
  else if fc == ['3', '3'] then { s with health_services := s.health_services.bump g a }
  else if fc == ['3', '4'] then
    { s with student_transportation := s.student_transportation.bump g a }
  else if fc == ['3', '5'] then { s with food_service := s.food_service.bump g a }
  else if fc == ['3', '6'] then { s with cocurricular := s.cocurricular.bump g a }
  else if fc == ['4', '1'] then { s with general_admin := s.general_admin.bump g a }
  else if fc == ['5', '1'] then
    { s with facilities_maintenance := s.facilities_maintenance.bump g a }
  else if fc == ['5', '2'] then
    { s with security_monitoring := s.security_monitoring.bump g a }
  else if fc == ['5', '3'] then { s with data_processing := s.data_processing.bump g a }
  else if fc == ['6', '1'] then
    { s with community_services := s.community_services.bump g a }
  else if fc == ['7', '1'] then
    { s with principal_long_term_debt := s.principal_long_term_debt.bump g a }
  else if fc == ['7', '2'] then
    { s with interest_long_term_debt := s.interest_long_term_debt.bump g a }
  else if fc == ['7', '3'] then
    { s with bond_issuance_costs := s.bond_issuance_costs.bump g a }
  else if fc == ['8', '1'] then { s with capital_outlay := s.capital_outlay.bump g a }
  else if fc == ['9', '3'] then
    { s with shared_service_arrangements := s.shared_service_arrangements.bump g a }
  else if fc == ['9', '9'] then
    { s with other_intergovernmental := s.other_intergovernmental.bump g a }
  else { s with general_admin := s.general_admin.bump g a }

set_option maxHeartbeats 1000000 in
/-- Per-row accumulation of
`generate_governmental_funds_revenues_expenditures` in main.py: the revenue
masks (57/58/59 with a 5xxx default into local sources), the expenditure
routing by function code for 6xxx rows, and the other-financing masks (79xx
exact codes with a default into other resources, and everything starting
with '8' into transfers out). -/
def reProcessRow (mapping : Mapping) (s : FundsRevExp) (r : Row) : FundsRevExp :=
  let oc := sliceL r.account_code.toList 5 9
  let fc := sliceL r.account_code.toList 3 5
  let g := fundKeyIsGeneral mapping r.account_code
  let a := r.current_year_actual
  s
  |> addSum (startsWithL oc ['5', '7'])
    (fun t => { t with local_intermediate_sources := t.local_intermediate_sources.bump g a })
  |> addSum (startsWithL oc ['5', '8'])
    (fun t => { t with state_program_revenues := t.state_program_revenues.bump g a })
  |> addSum (startsWithL oc ['5', '9'])
    (fun t => { t with federal_program_revenues := t.federal_program_revenues.bump g a })
  |> addSum (startsWithL oc ['5'] && !(startsWithL oc ['5', '7'] ||
      startsWithL oc ['5', '8'] || startsWithL oc ['5', '9']))
    (fun t => { t with local_intermediate_sources := t.local_intermediate_sources.bump g a })
  |> addSum (startsWithL oc ['6']) (fun t => reBumpExpenditure t fc g a)
  |> addSum (oc == ['7', '9', '1', '2'])
    (fun t => { t with of_sale_property := t.of_sale_property.bump g a })
  |> addSum (oc == ['7', '9', '1', '5'])
    (fun t => { t with of_transfers_in := t.of_transfers_in.bump g a })
  |> addSum (oc == ['7', '9', '1', '6'])
    (fun t => { t with of_premium_bond_remarketing := t.of_premium_bond_remarketing.bump g a })
  |> addSum (oc == ['7', '9', '4', '9'])
    (fun t => { t with of_other_resources := t.of_other_resources.bump g a })
  |> addSum (startsWithL oc ['7', '9'] &&
      !([['7', '9', '1', '2'], ['7', '9', '1', '5'], ['7', '9', '1', '6'],
        ['7', '9', '4', '9']].contains oc))
    (fun t => { t with of_other_resources := t.of_other_resources.bump g a })
  |> addSum (oc == ['8', '9', '1', '1'] || startsWithL oc ['8'])
    (fun t => { t with of_transfers_out := t.of_transfers_out.bump g a })

/-- Totals of `generate_governmental_funds_revenues_expenditures`: total
revenues and expenditures, excess/deficiency, total other financing, net
change, the hardcoded beginning balances (25217718 general fund, 4550784
non-major), and the derived ending balances. -/
def reFinalize (s : FundsRevExp) : FundsRevExp :=
  let tr := s.local_intermediate_sources.plus
    (s.state_program_revenues.plus s.federal_program_revenues)
  let te := s.instruction.plus (s.instructional_resources.plus
    (s.curriculum_staff_dev.plus (s.instructional_leadership.plus
    (s.school_leadership.plus (s.guidance_counseling.plus (s.social_work.plus
    (s.health_services.plus (s.student_transportation.plus (s.food_service.plus
    (s.cocurricular.plus (s.general_admin.plus (s.facilities_maintenance.plus
    (s.security_monitoring.plus (s.data_processing.plus (s.community_services.plus
    (s.principal_long_term_debt.plus (s.interest_long_term_debt.plus
    (s.bond_issuance_costs.plus (s.capital_outlay.plus
    (s.shared_service_arrangements.plus s.other_intergovernmental))))))))))))))))))))
  let excess : FundCell := ⟨tr.general_fund - te.general_fund,
    tr.non_major_funds - te.non_major_funds⟩
  let tof := s.of_sale_property.plus (s.of_transfers_in.plus
    (s.of_premium_bond_remarketing.plus (s.of_other_resources.plus s.of_transfers_out)))
  let nc := excess.plus tof
  let beginning : FundCell := ⟨25217718, 4550784⟩
  { s with
    total_revenues := tr
    total_expenditures := te
    excess_deficiency := excess
    total_other_financing := tof
    net_change := nc
    fb_beginning := beginning
    fb_ending := beginning.plus nc }

/-- Source `generate_governmental_funds_revenues_expenditures` of main.py:
the empty trial balance returns the zero template unchanged (beginning
balances included); otherwise aggregate every row and compute the totals. -/
def generate_governmental_funds_revenues_expenditures (df : List Row) (mapping : Mapping) :
    FundsRevExp :=
  if df.isEmpty then fundsRevExpInit
  else reFinalize (df.foldl (reProcessRow mapping) fundsRevExpInit)

lemma foldl_skip_all {α β : Type} (f : α → β → α) (i : α) (l : List β)
    (h : ∀ s r, f s r = s) : l.foldl f i = i := by
  induction l generalizing i with
  | nil => rfl
  | cons x xs ih => rw [List.foldl_cons, h, ih]

lemma npProcessRow_unmapped (m : Mapping) (s : NetPosition) (r : Row)
    (h : m.lookup r.account_code = none) : npProcessRow m s r = s := by
  simp [npProcessRow, h]

lemma actProcessRow_unmapped (m : Mapping) (s : Activities) (r : Row)
    (h : m.lookup r.account_code = none) : actProcessRow m s r = s := by
  simp [actProcessRow, h]

/-- C2 (amended): in the two government-wide generators an unmapped row
contributes nothing — the statement generated with the row present equals the
statement generated with it removed.  (In the two governmental-funds
generators this fails: an unmapped row is still aggregated, into the
non_major_funds column when the mapping is non-empty, which is what the
counterexample shows against the original claim.) -/
theorem unmapped_row_contributes_nothing_gov_wide (m : Mapping)
    (pre post : List Row) (r : Row)
    (h : m.lookup r.account_code = none) :
    generate_government_wide_net_position (pre ++ r :: post) m =
      generate_government_wide_net_position (pre ++ post) m
    ∧ generate_government_wide_activities (pre ++ r :: post) m =
      generate_government_wide_activities (pre ++ post) m := by
  constructor
  · unfold generate_government_wide_net_position
    rw [List.foldl_append, List.foldl_append, List.foldl_cons,
      npProcessRow_unmapped _ _ _ h]
  · unfold generate_government_wide_activities
    rw [List.foldl_append, List.foldl_append, List.foldl_cons,
      actProcessRow_unmapped _ _ _ h]

/-- C2 witness: a concrete unmapped row leaves the two government-wide
statements unchanged. -/
theorem unmapped_row_contributes_nothing_gov_wide_witness :
    generate_government_wide_net_position [⟨"000001110", 5⟩]
        [("999999999", ⟨"Assets", "current_assets", "general_fund"⟩)] =
      generate_government_wide_net_position []
        [("999999999", ⟨"Assets", "current_assets", "general_fund"⟩)]
    ∧ generate_government_wide_activities [⟨"000001110", 5⟩]
        [("999999999", ⟨"Assets", "current_assets", "general_fund"⟩)] =
      generate_government_wide_activities []
        [("999999999", ⟨"Assets", "current_assets", "general_fund"⟩)] :=
  unmapped_row_contributes_nothing_gov_wide
    [("999999999", ⟨"Assets", "current_assets", "general_fund"⟩)] [] []
    ⟨"000001110", 5⟩ (by decide)

/-- C2 counterexample: in both governmental-funds generators a row whose
account code has no mapping entry still changes the statement (it lands in the
non_major_funds column), so the claim fails for them as stated. -/
theorem funds_unmapped_row_counterexample :
    (([("999999999", ⟨"Assets", "current_assets", "general_fund"⟩)] :
        Mapping).lookup "000001110" = none)
    ∧ (([("999999999", ⟨"Assets", "current_assets", "general_fund"⟩)] :
        Mapping).lookup "000005700" = none)
    ∧ generate_governmental_funds_balance [⟨"000001110", 5⟩]
        [("999999999", ⟨"Assets", "current_assets", "general_fund"⟩)] ≠
      generate_governmental_funds_balance []
        [("999999999", ⟨"Assets", "current_assets", "general_fund"⟩)]
    ∧ generate_governmental_funds_revenues_expenditures [⟨"000005700", 7⟩]
        [("999999999", ⟨"Assets", "current_assets", "general_fund"⟩)] ≠
      generate_governmental_funds_revenues_expenditures []
        [("999999999", ⟨"Assets", "current_assets", "general_fund"⟩)] := by
  refine ⟨by decide, by decide, by decide, by decide⟩

/-- All 29 leaf line items of the Statement of Net Position are zero. -/
def npAllLeavesZero (s : NetPosition) : Prop :=
  s.cash_and_cash_equivalents = 0 ∧ s.property_taxes_receivable = 0
  ∧ s.due_from_other_governments = 0 ∧ s.due_from_fiduciary = 0
  ∧ s.other_receivables = 0 ∧ s.inventories = 0 ∧ s.unrealized_expenses = 0
  ∧ s.capital_land = 0 ∧ s.capital_buildings_improvements = 0
  ∧ s.capital_furniture_equipment = 0 ∧ s.capital_construction_in_progress = 0
  ∧ s.deferred_charge_refunding = 0 ∧ s.deferred_outflow_pensions = 0
  ∧ s.deferred_outflow_opeb = 0 ∧ s.accounts_payable = 0
  ∧ s.interest_payable = 0 ∧ s.accrued_liabilities = 0
  ∧ s.due_to_other_governments = 0 ∧ s.unearned_revenue = 0
  ∧ s.due_within_one_year = 0 ∧ s.due_more_than_one_year = 0
  ∧ s.net_pension_liability = 0 ∧ s.net_opeb_liability = 0
  ∧ s.deferred_inflow_pensions = 0 ∧ s.deferred_inflow_opeb = 0
  ∧ s.net_investment_capital_assets = 0 ∧ s.restricted_state_federal_programs = 0
  ∧ s.restricted_debt_service = 0 ∧ s.unrestricted = 0

/-- All leaf line items of the Statement of Activities are zero: the three
accumulated columns of each of the 21 programs, and the six general-revenue
lines. -/
def actAllLeavesZero (s : Activities) : Prop :=
  (∀ p ∈ [s.instruction, s.instructional_resources, s.curriculum_staff_dev,
      s.instructional_leadership, s.school_leadership, s.guidance_counseling,
      s.social_work, s.health_services, s.student_transportation, s.food_service,
      s.cocurricular, s.general_admin, s.facilities_maintenance,
      s.security_monitoring, s.data_processing, s.community_services,
      s.interest_long_term_debt, s.bond_issuance_costs, s.capital_outlay,
      s.shared_services, s.other_intergovernmental],
    p.expenses = 0 ∧ p.charges_for_services = 0 ∧ p.operating_grants = 0)
  ∧ s.gr_property_taxes_general = 0 ∧ s.gr_property_taxes_debt = 0
  ∧ s.gr_chapter_313_payments = 0 ∧ s.gr_investment_earnings = 0
  ∧ s.gr_grants_contributions = 0 ∧ s.gr_miscellaneous = 0

/-- C3 (amended): with an empty mapping the two government-wide generators
return all-zero leaves for every trial balance, and the two
governmental-funds generators return the zero template whenever the trial
balance is empty (for any mapping).  (With an empty mapping and a non-empty
trial balance the funds generators treat every row as general_fund and
aggregate it — the counterexample against the original claim.) -/
theorem empty_mapping_all_zero_leaves (df : List Row) (m : Mapping) :
    npAllLeavesZero (generate_government_wide_net_position df [])
    ∧ actAllLeavesZero (generate_government_wide_activities df [])
    ∧ generate_governmental_funds_balance [] m = fundsBalanceInit
    ∧ generate_governmental_funds_revenues_expenditures [] m = fundsRevExpInit := by
  have hnp : df.foldl (npProcessRow []) netPositionInit = netPositionInit :=
    foldl_skip_all _ _ _ (fun s r => rfl)
  have hact : df.foldl (actProcessRow []) activitiesInit = activitiesInit :=
    foldl_skip_all _ _ _ (fun s r => rfl)
  refine ⟨?_, ?_, rfl, rfl⟩
  · unfold npAllLeavesZero generate_government_wide_net_position
    rw [hnp]
    decide
  · unfold actAllLeavesZero generate_government_wide_activities
    rw [hact]
    decide

/-- C3 counterexample: with an empty mapping but a non-empty trial balance,
the funds generators produce non-zero leaves (every row is routed to the
general_fund column), so the claim fails for them as stated. -/
theorem funds_empty_mapping_counterexample :
    (generate_governmental_funds_balance [⟨"000001110", 5⟩]
      []).cash_and_equivalents.general_fund ≠ 0
    ∧ (generate_governmental_funds_revenues_expenditures [⟨"000005700", 7⟩]
      []).local_intermediate_sources.general_fund ≠ 0 := by
  refine ⟨by decide, by decide⟩

/-- C9 (amended): for every non-empty trial balance, the generated
revenues/expenditures statement satisfies, in each fund column,
excess = revenues − expenditures, net change = excess + other financing and
ending = beginning + net change, with the beginning balances hardcoded to
25217718 (general fund) and 4550784 (non-major).  (For the empty trial
balance the generator returns the zero template early, with beginning
balances 0 — the counterexample against "regardless of input".) -/
theorem funds_rev_exp_arithmetic (df : List Row) (m : Mapping) (h : df ≠ []) :
    let s := generate_governmental_funds_revenues_expenditures df m
    s.fb_beginning = ⟨25217718, 4550784⟩
    ∧ s.excess_deficiency.general_fund =
      s.total_revenues.general_fund - s.total_expenditures.general_fund
    ∧ s.excess_deficiency.non_major_funds =
      s.total_revenues.non_major_funds - s.total_expenditures.non_major_funds
    ∧ s.net_change.general_fund =
      s.excess_deficiency.general_fund + s.total_other_financing.general_fund
    ∧ s.net_change.non_major_funds =
      s.excess_deficiency.non_major_funds + s.total_other_financing.non_major_funds
    ∧ s.fb_ending.general_fund = s.fb_beginning.general_fund + s.net_change.general_fund
    ∧ s.fb_ending.non_major_funds =
      s.fb_beginning.non_major_funds + s.net_change.non_major_funds := by
  obtain ⟨x, xs, rfl⟩ : ∃ x xs, df = x :: xs := by
    cases df with
    | nil => exact absurd rfl h
    | cons x xs => exact ⟨x, xs, rfl⟩
  exact ⟨rfl, rfl, rfl, rfl, rfl, rfl, rfl⟩

/-- C9 witness: the theorem applied to a concrete one-row trial balance. -/
theorem funds_rev_exp_arithmetic_witness :
    (generate_governmental_funds_revenues_expenditures [⟨"000005700", 7⟩]
      []).fb_beginning = ⟨25217718, 4550784⟩ :=
  (funds_rev_exp_arithmetic [⟨"000005700", 7⟩] [] (by decide)).1

/-- C9 counterexample: on the empty trial balance the beginning general-fund
balance is 0, not the hardcoded 25217718 the claim asserts regardless of
input. -/
theorem funds_rev_exp_empty_counterexample :
    (generate_governmental_funds_revenues_expenditures []
      []).fb_beginning.general_fund ≠ 25217718 := by
  decide

lemma mem_of_startsWithL {s n : Str} {c : Char} (h : startsWithL s n = true)
    (hc : c ∈ n) : c ∈ s := by
  induction n generalizing s with
  | nil => simp at hc
  | cons p ps ih =>
    cases s with
    | nil => simp [startsWithL] at h
    | cons x xs =>
      rw [startsWithL, Bool.and_eq_true] at h
      rcases List.mem_cons.mp hc with rfl | hc2
      · rw [beq_iff_eq] at *
        rw [← h.1]
        exact List.mem_cons_self _ _
      · exact List.mem_cons_of_mem _ (ih h.2 hc2)

lemma containsL_eq_false {h : Str} {n : Str} {c : Char} (hc : c ∈ n)
    (hcP : c.isDigit = false) (hd : h.all Char.isDigit = true) :
    containsL h n = false := by
  induction h with
  | nil =>
    cases n with
    | nil => simp at hc
    | cons y ys => rfl
  | cons x t ih =>
    rw [containsL]
    have h1 : startsWithL (x :: t) n = false := by
      cases hsw : startsWithL (x :: t) n with
      | false => rfl
      | true =>
        have hmem := mem_of_startsWithL hsw hc
        have := (List.all_eq_true.mp hd) c hmem
        rw [this] at hcP
        exact absurd hcP (by simp)
    have h2 : containsL t n = false := by
      apply ih
      rw [List.all_cons, Bool.and_eq_true] at hd
      exact hd.2
    rw [h1, h2]
    rfl

/-- C10: for a mapped row whose entry carries gasb_category
"general_revenues", whose account code is all digits and does not contain the
digit substring "313", and whose tea_category is one of the classifier's
eight fixed TEA names, the activities generator accumulates the amount into
general_revenues.miscellaneous and leaves the other five general-revenue
lines unchanged — none of the uppercase-letter or keyword triggers for the
other lines can fire on such data. -/
theorem general_revenues_route_to_miscellaneous (m : Mapping) (df : List Row)
    (code : String) (a : ℚ) (e : MappingEntry)
    (hm : m.lookup code = some e)
    (hg : e.gasb_category = "general_revenues")
    (hdig : code.toList.all Char.isDigit = true)
    (h313 : containsL code.toList ['3', '1', '3'] = false)
    (htea : e.tea_category ∈ TEA_CATEGORY_NAMES) :
    (generate_government_wide_activities (df ++ [⟨code, a⟩]) m).gr_miscellaneous =
      (generate_government_wide_activities df m).gr_miscellaneous + a
    ∧ (generate_government_wide_activities (df ++ [⟨code, a⟩]) m).gr_property_taxes_general =
      (generate_government_wide_activities df m).gr_property_taxes_general
    ∧ (generate_government_wide_activities (df ++ [⟨code, a⟩]) m).gr_property_taxes_debt =
      (generate_government_wide_activities df m).gr_property_taxes_debt
    ∧ (generate_government_wide_activities (df ++ [⟨code, a⟩]) m).gr_chapter_313_payments =
      (generate_government_wide_activities df m).gr_chapter_313_payments
    ∧ (generate_government_wide_activities (df ++ [⟨code, a⟩]) m).gr_investment_earnings =
      (generate_government_wide_activities df m).gr_investment_earnings
    ∧ (generate_government_wide_activities (df ++ [⟨code, a⟩]) m).gr_grants_contributions =
      (generate_government_wide_activities df m).gr_grants_contributions := by
  have hMT : containsL code.toList ['M', 'T'] = false :=
    containsL_eq_false (c := 'M') (by simp) (by decide) hdig
  have hDT : containsL code.toList ['D', 'T'] = false :=
    containsL_eq_false (c := 'D') (by simp) (by decide) hdig
  have hIE : containsL code.toList ['I', 'E'] = false :=
    containsL_eq_false (c := 'I') (by simp) (by decide) hdig
  have hGC : containsL code.toList ['G', 'C'] = false :=
    containsL_eq_false (c := 'G') (by simp) (by decide) hdig
  have hMI : containsL code.toList ['M', 'I'] = false :=
    containsL_eq_false (c := 'M') (by simp) (by decide) hdig
  simp only [String.toList] at hMT hDT hIE hGC hMI h313
  have key : ∀ t : Activities,
      (actProcessRow m t ⟨code, a⟩).gr_miscellaneous = t.gr_miscellaneous + a
      ∧ (actProcessRow m t ⟨code, a⟩).gr_property_taxes_general = t.gr_property_taxes_general
      ∧ (actProcessRow m t ⟨code, a⟩).gr_property_taxes_debt = t.gr_property_taxes_debt
      ∧ (actProcessRow m t ⟨code, a⟩).gr_chapter_313_payments = t.gr_chapter_313_payments
      ∧ (actProcessRow m t ⟨code, a⟩).gr_investment_earnings = t.gr_investment_earnings
      ∧ (actProcessRow m t ⟨code, a⟩).gr_grants_contributions = t.gr_grants_contributions := by
    intro t
    simp only [TEA_CATEGORY_NAMES, TEA_OBJECT_CATEGORIES, List.map_cons, List.map_nil,
      List.mem_cons, List.not_mem_nil, or_false] at htea
    rcases htea with h | h | h | h | h | h | h | h <;>
    · have k1 : containsL (lowerL e.tea_category.toList)
          ['p', 'r', 'o', 'p', 'e', 'r', 't', 'y'] = false := by rw [h]; decide
      have k2 : containsL (lowerL e.tea_category.toList)
          ['d', 'e', 'b', 't'] = false := by rw [h]; decide
      have k3 : containsL (lowerL e.tea_category.toList)
          ['c', 'h', 'a', 'p', 't', 'e', 'r'] = false := by rw [h]; decide
      have k4 : containsL (lowerL e.tea_category.toList)
          ['i', 'n', 'v', 'e', 's', 't', 'm', 'e', 'n', 't'] = false := by rw [h]; decide
      have k5 : containsL (lowerL e.tea_category.toList)
          ['g', 'r', 'a', 'n', 't'] = false := by rw [h]; decide
      have k6 : containsL (lowerL e.tea_category.toList)
          ['m', 'i', 's', 'c', 'e', 'l', 'l', 'a', 'n', 'e', 'o', 'u', 's'] = false := by
        rw [h]; decide
      simp only [String.toList] at k1 k2 k3 k4 k5 k6
      simp [actProcessRow, hm, hg, hMT, hDT, hIE, hGC, hMI, h313, k1, k2, k3, k4, k5, k6]
  have happ : (df ++ [(⟨code, a⟩ : Row)]).foldl (actProcessRow m) activitiesInit =
      actProcessRow m (df.foldl (actProcessRow m) activitiesInit) ⟨code, a⟩ := by
    rw [List.foldl_append, List.foldl_cons, List.foldl_nil]
  unfold generate_government_wide_activities
  rw [happ]
  exact key _

/-- C10 witness: a concrete all-digit general-revenues row (code "100005740",
TEA category "Revenues") accumulates into the miscellaneous line. -/
theorem general_revenues_route_to_miscellaneous_witness :
    (generate_government_wide_activities [⟨"100005740", 7⟩]
        [("100005740", ⟨"Revenues", "general_revenues", "general_fund"⟩)]).gr_miscellaneous =
      (generate_government_wide_activities []
        [("100005740", ⟨"Revenues", "general_revenues", "general_fund"⟩)]).gr_miscellaneous
        + 7 :=
  (general_revenues_route_to_miscellaneous
    [("100005740", ⟨"Revenues", "general_revenues", "general_fund"⟩)] [] "100005740" 7
    ⟨"Revenues", "general_revenues", "general_fund"⟩
    (by decide) rfl (by decide) (by decide) (by decide)).1

/-- The result dictionary of `validate_mapping` in mapping_rules.py. -/
structure ValidationResult where
  valid : Bool
  unmapped_accounts : List String
  invalid_accounts : List String
  total_unmapped : Nat
  total_invalid : Nat
  mapped_categories : List String
  warnings : List String
  has_essential_categories : Bool
deriving DecidableEq

/-- Python `set.add` on the insertion-ordered model of the
`mapped_categories` set. -/
def addSet (l : List String) (x : String) : List String :=
  if l.contains x then l else l ++ [x]

/-- The unmapped test of `validate_mapping`: Python
`not (entry.get('gasb_category') and entry.get('gasb_category') != 'unknown')`
— a falsy (empty) or `'unknown'` gasb category. -/
def isUnmappedEntry (e : MappingEntry) : Bool :=
  e.gasb_category == "" || e.gasb_category == "unknown"

/-- The accumulation loop of `validate_mapping` in mapping_rules.py, carrying
the mapped-categories set and the unmapped / invalid code lists in input
order: invalid codes are skipped (`continue`) before the category test. -/
def vmLoop : List (String × MappingEntry) → List String → List String → List String →
    List String × List String × List String
  | [], mc, un, inv => (mc, un, inv)
  | (code, e) :: rest, mc, un, inv =>
    if !(validate_account_code code) then vmLoop rest mc un (inv ++ [code])
    else if !(isUnmappedEntry e) then vmLoop rest (addSet mc e.gasb_category) un inv
    else vmLoop rest mc (un ++ [code]) inv

/-- The `essential_categories` dictionary of `validate_mapping`, in
declaration order. -/
def essential_categories : List (String × List String) :=
  [("assets", ["current_assets", "capital_assets"]),
    ("liabilities", ["current_liabilities", "long_term_liabilities"]),
    ("net_position", ["net_investment_capital_assets", "restricted_net_position",
      "unrestricted_net_position"]),
    ("revenues", ["program_revenues", "general_revenues"]),
    ("expenses", ["program_expenses", "general_expenses"])]

/-- The warning string of `validate_mapping`: Python
`f"No {group.replace('_', ' ')} categories mapped"`. -/
def warnText (g : String) : String :=
  "No " ++ (g.map fun c => if c == '_' then ' ' else c) ++ " categories mapped"

/-- Source `validate_mapping` of mapping_rules.py: classify every entry as
invalid / mapped / unmapped, report the first 10 of each problem list with
full counts, and warn for each essential category group with no mapped
sub-category. -/
def validate_mapping (mapping : Mapping) : ValidationResult :=
  let res := vmLoop mapping [] [] []
  let mapped_categories := res.1
  let unmapped_accounts := res.2.1
  let invalid_accounts := res.2.2
  let warnings := (essential_categories.filter
    (fun g => !(g.2.any (fun c => mapped_categories.contains c)))).map
    (fun g => warnText g.1)
  { valid := unmapped_accounts.length == 0 && invalid_accounts.length == 0
    unmapped_accounts := unmapped_accounts.take 10
    invalid_accounts := invalid_accounts.take 10
    total_unmapped := unmapped_accounts.length
    total_invalid := invalid_accounts.length
    mapped_categories := mapped_categories
    warnings := warnings
    has_essential_categories := warnings.length == 0 }

/-- Modelled from the claim wording (C7): the codes counted invalid — those
failing the account-code format check, in mapping order. -/
def vmInvalidCodes (m : Mapping) : List String :=
  (m.filter (fun p => !(validate_account_code p.1))).map Prod.fst

/-- Modelled from the claim wording (C7): the codes counted unmapped — format
check passed but empty or `'unknown'` gasb category, in mapping order. -/
def vmUnmappedCodes (m : Mapping) : List String :=
  (m.filter (fun p => validate_account_code p.1 && isUnmappedEntry p.2)).map Prod.fst

/-- Modelled from the claim wording (C7): a gasb category appears among the
mapped categories when some format-valid, non-unmapped entry carries it. -/
def vmMappedPred (m : Mapping) (c : String) : Bool :=
  m.any (fun p => validate_account_code p.1 && !(isUnmappedEntry p.2) &&
    (c == p.2.gasb_category))

lemma vmLoop_unmapped (l : List (String × MappingEntry)) (mc un inv : List String) :
    (vmLoop l mc un inv).2.1 = un ++ vmUnmappedCodes l := by
  induction l generalizing mc un inv with
  | nil => simp [vmLoop, vmUnmappedCodes]
  | cons p rest ih =>
    obtain ⟨code, e⟩ := p
    cases hv : validate_account_code code <;> cases hu : isUnmappedEntry e <;>
      simp [vmLoop, vmUnmappedCodes, List.filter_cons, hv, hu, ih]

lemma vmLoop_invalid (l : List (String × MappingEntry)) (mc un inv : List String) :
    (vmLoop l mc un inv).2.2 = inv ++ vmInvalidCodes l := by
  induction l generalizing mc un inv with
  | nil => simp [vmLoop, vmInvalidCodes]
  | cons p rest ih =>
    obtain ⟨code, e⟩ := p
    cases hv : validate_account_code code <;> cases hu : isUnmappedEntry e <;>
      simp [vmLoop, vmInvalidCodes, List.filter_cons, hv, hu, ih]

lemma contains_append_single (l : List String) (x c : String) :
    (l ++ [x]).contains c = (l.contains c || c == x) := by
  induction l with
  | nil =>
    rw [List.nil_append, List.contains_cons]
    simp
  | cons y ys ih =>
    rw [List.cons_append, List.contains_cons, List.contains_cons, ih, Bool.or_assoc]

lemma addSet_contains (l : List String) (x c : String) :
    (addSet l x).contains c = (l.contains c || c == x) := by
  unfold addSet
  by_cases h : l.contains x = true
  · rw [if_pos h]
    cases hxc : (c == x) with
    | false => simp
    | true =>
      rw [Bool.or_true]
      rw [beq_iff_eq] at hxc
      subst hxc
      exact h
  · rw [if_neg h]
    exact contains_append_single l x c

lemma vmLoop_mapped (l : List (String × MappingEntry)) (mc un inv : List String)
    (c : String) :
    (vmLoop l mc un inv).1.contains c = (mc.contains c || vmMappedPred l c) := by
  induction l generalizing mc un inv with
  | nil => simp [vmLoop, vmMappedPred]
  | cons p rest ih =>
    obtain ⟨code, e⟩ := p
    cases hv : validate_account_code code with
    | false =>
      have hstep : vmLoop ((code, e) :: rest) mc un inv = vmLoop rest mc un (inv ++ [code]) := by
        simp [vmLoop, hv]
      have hpred : vmMappedPred ((code, e) :: rest) c = vmMappedPred rest c := by
        simp [vmMappedPred, hv]
      rw [hstep, ih, hpred]
    | true =>
      cases hu : isUnmappedEntry e with
      | true =>
        have hstep : vmLoop ((code, e) :: rest) mc un inv =
            vmLoop rest mc (un ++ [code]) inv := by
          simp [vmLoop, hv, hu]
        have hpred : vmMappedPred ((code, e) :: rest) c = vmMappedPred rest c := by
          simp [vmMappedPred, hv, hu]
        rw [hstep, ih, hpred]
      | false =>
        have hstep : vmLoop ((code, e) :: rest) mc un inv =
            vmLoop rest (addSet mc e.gasb_category) un inv := by
          simp [vmLoop, hv, hu]
        have hpred : vmMappedPred ((code, e) :: rest) c =
            ((c == e.gasb_category) || vmMappedPred rest c) := by
          simp [vmMappedPred, hv, hu]
        rw [hstep, ih, hpred, addSet_contains, Bool.or_assoc]

/-- C7: `validate_mapping` reports exactly as claimed: `valid` holds iff there
are no unmapped and no invalid entries; the two problem lists are the first 10
of the full in-order lists whose lengths the totals report; a category is in
`mapped_categories` iff some format-valid, non-unmapped entry carries it; one
warning is produced per essential group with no mapped sub-category; and
`has_essential_categories` holds iff there are no warnings. -/
theorem validate_mapping_spec (m : Mapping) :
    let r := validate_mapping m
    (r.valid = true ↔ r.total_unmapped = 0 ∧ r.total_invalid = 0)
    ∧ r.unmapped_accounts = (vmUnmappedCodes m).take 10
    ∧ r.invalid_accounts = (vmInvalidCodes m).take 10
    ∧ r.total_unmapped = (vmUnmappedCodes m).length
    ∧ r.total_invalid = (vmInvalidCodes m).length
    ∧ (∀ c, r.mapped_categories.contains c = vmMappedPred m c)
    ∧ r.warnings = (essential_categories.filter
        (fun g => !(g.2.any (vmMappedPred m)))).map (fun g => warnText g.1)
    ∧ (r.has_essential_categories = true ↔ r.warnings = []) := by
  have hun : (vmLoop m [] [] []).2.1 = vmUnmappedCodes m := by
    simpa using vmLoop_unmapped m [] [] []
  have hinv : (vmLoop m [] [] []).2.2 = vmInvalidCodes m := by
    simpa using vmLoop_invalid m [] [] []
  have hmc : (fun c => (vmLoop m [] [] []).1.contains c) = vmMappedPred m := by
    funext c
    simpa using vmLoop_mapped m [] [] [] c
  refine ⟨?_, ?_, ?_, ?_, ?_, ?_, ?_, ?_⟩
  · show ((vmLoop m [] [] []).2.1.length == 0 && (vmLoop m [] [] []).2.2.length == 0) = true ↔
      (vmLoop m [] [] []).2.1.length = 0 ∧ (vmLoop m [] [] []).2.2.length = 0
    simp
  · show (vmLoop m [] [] []).2.1.take 10 = (vmUnmappedCodes m).take 10
    rw [hun]
  · show (vmLoop m [] [] []).2.2.take 10 = (vmInvalidCodes m).take 10
    rw [hinv]
  · show (vmLoop m [] [] []).2.1.length = (vmUnmappedCodes m).length
    rw [hun]
  · show (vmLoop m [] [] []).2.2.length = (vmInvalidCodes m).length
    rw [hinv]
  · intro c
    show (vmLoop m [] [] []).1.contains c = vmMappedPred m c
    exact congrFun hmc c
  · show (essential_categories.filter
        (fun g => !(g.2.any (fun c => (vmLoop m [] [] []).1.contains c)))).map
        (fun g => warnText g.1) = _
    rw [hmc]
  · show (((essential_categories.filter
        (fun g => !(g.2.any (fun c => (vmLoop m [] [] []).1.contains c)))).map
        (fun g => warnText g.1)).length == 0) = true ↔
      (essential_categories.filter
        (fun g => !(g.2.any (fun c => (vmLoop m [] [] []).1.contains c)))).map
        (fun g => warnText g.1) = []
    simp
